import Mathlib

/-!
Verification development for the Google Drive MCP server (src/main.py).

The development shallowly embeds the authenticated-request pipeline of the
server: the process-wide token cache (the module global named
_cached_access_token together with get_connection_credentials,
get_access_token and refresh_access_token), the request dispatcher
make_api_request, and the query/body construction performed by the tool
catalog functions.

External collaborators (the Nango credential broker and the upstream Google
Drive HTTP API) are modelled as oracles inside an Env value: the n-th call
to the broker and the n-th outbound HTTP request receive the outcome the
oracle assigns to that index.  Mutable process state (the cached token, the
number of broker calls made, and the log of issued HTTP requests) is passed
explicitly as a DState value.

JSON payloads are modelled by the JValue type.  Python dictionaries that the
code builds key-by-key (query parameter mappings and JSON bodies) are
modelled as insertion-ordered association lists.  Python truthiness, which
the source uses to guard optional parameters, is modelled explicitly by
jTruthy and the guard predicates truthyStr, truthyInt, truthyList and
truthyObj.
-/

/-- A JSON-like value: the payloads passed to and received from the
upstream API are arbitrary JSON. -/
inductive JValue where
  | null
  | bool (b : Bool)
  | int (n : Int)
  | str (s : String)
  | arr (elems : List JValue)
  | obj (fields : List (String × JValue))

/-- A Python dict built key-by-key, as an insertion-ordered association
list (used for query-parameter mappings and JSON bodies). -/
abbrev QDict := List (String × JValue)

/-- An HTTP header mapping. -/
abbrev Headers := List (String × String)

/-- Python truthiness of a JSON value: None, False, 0, empty string, empty
list and empty dict are falsy; everything else is truthy. -/
def jTruthy : JValue → Bool
  | .null => false
  | .bool b => b
  | .int n => !(n == 0)
  | .str s => !(s == "")
  | .arr l => !l.isEmpty
  | .obj l => !l.isEmpty

/-- Python truthiness of an optional value (None is falsy). -/
def jTruthyOpt : Option JValue → Bool
  | some v => jTruthy v
  | none => false

/-- Rendering of a JSON value inside an f-string, as in
Bearer-token header construction.  Faithful for the string, integer,
boolean and None cases; list and dict rendering is abstracted (tokens are
strings in every modelled scenario). -/
def pyStr : JValue → String
  | .str s => s
  | .int n => toString n
  | .bool b => if b then "True" else "False"
  | .null => "None"
  | .arr _ => "<list>"
  | .obj _ => "<dict>"

/-- Python dict.get on a JSON value: returns the value under the key (or
none when absent) when the receiver is a dict, and raises AttributeError
otherwise, modelled as an Except error. -/
def pyGet (j : JValue) (k : String) : Except String (Option JValue) :=
  match j with
  | .obj l => .ok ((l.find? (fun p => p.1 == k)).map Prod.snd)
  | _ => .error "AttributeError: object has no attribute get"

/-- Python dict.get with a default value. -/
def pyGetD (j : JValue) (k : String) (d : JValue) : Except String JValue :=
  match pyGet j k with
  | .error e => .error e
  | .ok (some v) => .ok v
  | .ok none => .ok d

/-- Guard used by the source pattern "if x:" on an optional string
parameter: the key is added only when the value is supplied and non-empty. -/
def truthyStr : Option String → Bool
  | some s => !(s == "")
  | none => false

/-- Guard used by the source pattern "if x:" on an optional integer
parameter: the key is added only when the value is supplied and non-zero. -/
def truthyInt : Option Int → Bool
  | some n => !(n == 0)
  | none => false

/-- Guard used by the source pattern "if x:" on an optional list
parameter: the key is added only when the value is supplied and non-empty. -/
def truthyList : Option (List String) → Bool
  | some l => !l.isEmpty
  | none => false

/-- Guard used by the source pattern "if x:" on an optional dict
parameter: the key is added only when the value is supplied and non-empty. -/
def truthyObj : Option QDict → Bool
  | some l => !l.isEmpty
  | none => false

/-- Adding an entry to a freshly built Python dict (a key never written
twice in the source builders), which appends in insertion order. -/
def qput (m : QDict) (k : String) (v : JValue) : QDict := m ++ [(k, v)]

/-- The source pattern "if x: params[k] = x" for an optional string. -/
def qputStr (m : QDict) (k : String) (v : Option String) : QDict :=
  match v with
  | some s => if s == "" then m else qput m k (.str s)
  | none => m

/-- The source pattern "if x: params[k] = x" for an optional integer. -/
def qputInt (m : QDict) (k : String) (v : Option Int) : QDict :=
  match v with
  | some n => if n == 0 then m else qput m k (.int n)
  | none => m

/-- The source pattern "if x is not None: params[k] = x" for an optional
boolean. -/
def qputBoolN (m : QDict) (k : String) (v : Option Bool) : QDict :=
  match v with
  | some b => qput m k (.bool b)
  | none => m

/-- The source pattern "if x: body[k] = x" for an optional list of
strings. -/
def qputList (m : QDict) (k : String) (v : Option (List String)) : QDict :=
  match v with
  | some l => if l.isEmpty then m else qput m k (.arr (l.map JValue.str))
  | none => m

/-- The source pattern "if x: body[k] = x" for an optional dict. -/
def qputObj (m : QDict) (k : String) (v : Option QDict) : QDict :=
  match v with
  | some l => if l.isEmpty then m else qput m k (.obj l)
  | none => m

/-- Key membership in a built mapping. -/
def hasKeyQ (m : QDict) (k : String) : Bool := m.any (fun p => p.1 == k)

theorem hasKeyQ_nil (k : String) : hasKeyQ [] k = false := rfl

theorem hasKeyQ_qput (m : QDict) (k : String) (v : JValue) (k' : String) :
    hasKeyQ (qput m k v) k' = (hasKeyQ m k' || (k == k')) := by
  simp [hasKeyQ, qput, List.any_append]

theorem hasKeyQ_qputStr (m : QDict) (k : String) (v : Option String) (k' : String) :
    hasKeyQ (qputStr m k v) k' = (hasKeyQ m k' || (k == k' && truthyStr v)) := by
  cases v with
  | none => simp [qputStr, truthyStr]
  | some s =>
    simp only [qputStr, truthyStr]
    cases h : s == "" with
    | true => simp [h]
    | false => simp [h, hasKeyQ_qput]

theorem hasKeyQ_qputInt (m : QDict) (k : String) (v : Option Int) (k' : String) :
    hasKeyQ (qputInt m k v) k' = (hasKeyQ m k' || (k == k' && truthyInt v)) := by
  cases v with
  | none => simp [qputInt, truthyInt]
  | some n =>
    simp only [qputInt, truthyInt]
    cases h : n == 0 with
    | true => simp [h]
    | false => simp [h, hasKeyQ_qput]

theorem hasKeyQ_qputBoolN (m : QDict) (k : String) (v : Option Bool) (k' : String) :
    hasKeyQ (qputBoolN m k v) k' = (hasKeyQ m k' || (k == k' && v.isSome)) := by
  cases v with
  | none => simp [qputBoolN]
  | some b => simp [qputBoolN, hasKeyQ_qput]

theorem hasKeyQ_qputList (m : QDict) (k : String) (v : Option (List String)) (k' : String) :
    hasKeyQ (qputList m k v) k' = (hasKeyQ m k' || (k == k' && truthyList v)) := by
  cases v with
  | none => simp [qputList, truthyList]
  | some l =>
    simp only [qputList, truthyList]
    cases h : l.isEmpty with
    | true => simp [h]
    | false => simp [h, hasKeyQ_qput]

theorem hasKeyQ_qputObj (m : QDict) (k : String) (v : Option QDict) (k' : String) :
    hasKeyQ (qputObj m k v) k' = (hasKeyQ m k' || (k == k' && truthyObj v)) := by
  cases v with
  | none => simp [qputObj, truthyObj]
  | some l =>
    simp only [qputObj, truthyObj]
    cases h : l.isEmpty with
    | true => simp [h]
    | false => simp [h, hasKeyQ_qput]

/-- The uniform result envelope returned by the dispatcher (the pydantic
model APIResponse in the source). -/
structure APIResponse where
  success : Bool
  status_code : Nat
  data : Option JValue
  error : Option String

/-- One outbound HTTP request as handed to requests.request by the
dispatcher: verb, full URL, headers, query mapping, JSON body, raw body
and timeout. -/
structure HttpRequest where
  method : String
  url : String
  headers : Headers
  params : Option QDict
  json_data : Option QDict
  body : Option String
  timeout : Nat

/-- The mutable process state: the module-level token cache
_cached_access_token, the number of credential-broker calls made so far,
and the log of outbound upstream HTTP requests issued so far. -/
structure DState where
  cachedToken : Option JValue
  providerCalls : Nat
  requestLog : List HttpRequest

/-- Outcome of one call to the Nango credential broker: either the call
raises (network failure, missing configuration, or a non-2xx answer made
into an exception by raise_for_status), or it returns a parsed JSON
response body. -/
inductive ProviderOutcome where
  | fail (msg : String)
  | ok (response : JValue)

/-- Shape of an upstream HTTP response body: empty, a body that parses as
JSON, or a non-empty body that fails to parse as JSON. -/
inductive BodyKind where
  | empty
  | json (j : JValue)
  | raw (text : String)

/-- Outcome of one outbound HTTP request to the upstream API: a transport
failure raised as requests.exceptions.RequestException before any status
code exists, or a response with a status code, reason phrase and body. -/
inductive UpstreamOutcome where
  | transportError (msg : String)
  | response (status : Nat) (reason : String) (body : BodyKind)

/-- The external world: the outcome of the n-th credential-broker call and
of the n-th outbound upstream request. -/
structure Env where
  provider : Nat → ProviderOutcome
  upstream : Nat → UpstreamOutcome

/-- The fixed upstream API origin. -/
def BASE_URL : String := "https://www.googleapis.com"

/-- get_connection_credentials: one call to the Nango credential broker.
The HTTP specifics (URL from environment variables, bearer secret,
refresh_token=true query, raise_for_status) are abstracted into the
provider oracle; the function either raises or returns the parsed JSON
response, and always counts one broker call. -/
def get_connection_credentials (env : Env) (s : DState) :
    Except String JValue × DState :=
  let s1 := { s with providerCalls := s.providerCalls + 1 }
  match env.provider s.providerCalls with
  | .fail msg => (.error msg, s1)
  | .ok response => (.ok response, s1)

/-- get_access_token: returns the cached token when the cache slot is not
None; otherwise calls the broker, extracts
credentials.get("credentials", ).get("access_token"), stores the
extracted value in the cache, and raises ValueError when the extracted
value is falsy.  Exceptions are modelled as Except errors. -/
def get_access_token (env : Env) (s : DState) : Except String JValue × DState :=
  match s.cachedToken with
  | some tok => (.ok tok, s)
  | none =>
    match get_connection_credentials env s with
    | (.error e, s1) => (.error e, s1)
    | (.ok credentials, s1) =>
      match pyGetD credentials "credentials" (.obj []) with
      | .error e => (.error e, s1)
      | .ok level1 =>
        match pyGet level1 "access_token" with
        | .error e => (.error e, s1)
        | .ok tok? =>
          let s2 := { s1 with cachedToken := tok? }
          if jTruthyOpt tok? then (.ok (tok?.getD .null), s2)
          else (.error "No access token found in Nango credentials", s2)

/-- refresh_access_token: clears the cache slot, then behaves as
get_access_token. -/
def refresh_access_token (env : Env) (s : DState) : Except String JValue × DState :=
  get_access_token env { s with cachedToken := none }

/-- Key membership in a header mapping. -/
def hasKeyH (h : Headers) (k : String) : Bool := h.any (fun p => p.1 == k)

/-- Python dict assignment headers[k] = v: replaces the value in place
when the key exists, appends otherwise. -/
def hset (h : Headers) (k v : String) : Headers :=
  match h with
  | [] => [(k, v)]
  | (k1, v1) :: rest => if k1 == k then (k, v) :: rest else (k1, v1) :: hset rest k v

/-- response.ok of the requests library: true exactly when the status code
is below 400. -/
def respOk (status : Nat) : Bool := status < 400

/-- Body handling of the dispatcher: an empty body gives data None; a body
that parses as JSON gives the parsed value; a non-empty unparsable body is
wrapped as a dict holding the raw text under the fallback key content. -/
def parseBody : BodyKind → Option JValue
  | .empty => none
  | .json j => some j
  | .raw text => some (.obj [("content", .str text)])

/-- The final envelope built from an upstream response: success mirrors
response.ok, status_code the numeric status, data the parsed body, and
error is None on success and the string HTTP code colon reason
otherwise. -/
def finalizeResponse (status : Nat) (reason : String) (body : BodyKind) : APIResponse :=
  { success := respOk status
    status_code := status
    data := parseBody body
    error := if respOk status then none
             else some ("HTTP " ++ toString status ++ ": " ++ reason) }

/-- Appends one issued request to the request log. -/
def logRequest (req : HttpRequest) (s : DState) : DState :=
  { s with requestLog := s.requestLog ++ [req] }

/-- The body of make_api_request after the Authorization header has been
settled: issue the request with timeout 30; a transport failure yields the
status-0 failure envelope with no retry; a 401 response with retry_auth
triggers exactly one invalidate-and-refresh followed by one reissue with
the replaced Authorization header (a failure inside that inner try block,
including a transport failure of the reissued request, yields the 401
refresh-failure envelope); every other path finalizes the last response. -/
def dispatchWithHeaders (env : Env) (method url : String) (hdrs : Headers)
    (params : Option QDict) (json_data : Option QDict) (data : Option String)
    (retry_auth : Bool) (s : DState) : APIResponse × DState :=
  let req1 : HttpRequest := ⟨method, url, hdrs, params, json_data, data, 30⟩
  let s1 := logRequest req1 s
  match env.upstream s.requestLog.length with
  | .transportError msg => (⟨false, 0, none, some msg⟩, s1)
  | .response status reason body =>
    if status == 401 && retry_auth then
      match refresh_access_token env s1 with
      | (.error e, s2) =>
        (⟨false, 401, none, some ("Failed to refresh access token: " ++ e)⟩, s2)
      | (.ok tok, s2) =>
        let hdrs2 := hset hdrs "Authorization" ("Bearer " ++ pyStr tok)
        let req2 : HttpRequest := ⟨method, url, hdrs2, params, json_data, data, 30⟩
        let s3 := logRequest req2 s2
        match env.upstream s2.requestLog.length with
        | .transportError msg =>
          (⟨false, 401, none, some ("Failed to refresh access token: " ++ msg)⟩, s3)
        | .response st2 r2 b2 => (finalizeResponse st2 r2 b2, s3)
    else (finalizeResponse status reason body, s1)

/-- make_api_request: when the caller-supplied headers lack an
Authorization key (or no headers were supplied), obtain a token from the
cache and attach it as a bearer credential, converting a token-acquisition
failure into the status-0 failure envelope without issuing any request;
then dispatch. -/
def make_api_request (env : Env) (method endpoint : String)
    (headers : Option Headers) (params : Option QDict) (json_data : Option QDict)
    (data : Option String) (retry_auth : Bool) (s : DState) : APIResponse × DState :=
  let url := BASE_URL ++ endpoint
  if (headers.map (fun h => hasKeyH h "Authorization")).getD false then
    dispatchWithHeaders env method url (headers.getD []) params json_data data retry_auth s
  else
    match get_access_token env s with
    | (.error e, s1) =>
      (⟨false, 0, none, some ("Failed to get access token: " ++ e)⟩, s1)
    | (.ok tok, s1) =>
      dispatchWithHeaders env method url
        (hset (headers.getD []) "Authorization" ("Bearer " ++ pyStr tok))
        params json_data data retry_auth s1

theorem get_access_token_cached (env : Env) (s : DState) (tok : JValue)
    (h : s.cachedToken = some tok) : get_access_token env s = (.ok tok, s) := by
  simp [get_access_token, h]

theorem get_access_token_miss (env : Env) (s : DState) (t : String)
    (hc : s.cachedToken = none)
    (hp : env.provider s.providerCalls =
      .ok (.obj [("credentials", .obj [("access_token", .str t)])]))
    (ht : (t == "") = false) :
    get_access_token env s =
      (.ok (.str t),
       { cachedToken := some (.str t), providerCalls := s.providerCalls + 1,
         requestLog := s.requestLog }) := by
  simp [get_access_token, hc, get_connection_credentials, hp, pyGetD, pyGet,
    jTruthyOpt, jTruthy, ht]

theorem refresh_access_token_eq (env : Env) (s : DState) (t : String)
    (hp : env.provider s.providerCalls =
      .ok (.obj [("credentials", .obj [("access_token", .str t)])]))
    (ht : (t == "") = false) :
    refresh_access_token env s =
      (.ok (.str t),
       { cachedToken := some (.str t), providerCalls := s.providerCalls + 1,
         requestLog := s.requestLog }) := by
  simp only [refresh_access_token]
  exact get_access_token_miss env _ t rfl hp ht

theorem get_access_token_log (env : Env) (s : DState) :
    (get_access_token env s).2.requestLog = s.requestLog := by
  cases hc : s.cachedToken with
  | some tok => simp [get_access_token, hc]
  | none =>
    cases hp : env.provider s.providerCalls with
    | fail msg => simp [get_access_token, get_connection_credentials, hc, hp]
    | ok response =>
      cases hg : pyGetD response "credentials" (.obj []) with
      | error e => simp [get_access_token, get_connection_credentials, hc, hp, hg]
      | ok level1 =>
        cases ha : pyGet level1 "access_token" with
        | error e =>
          simp [get_access_token, get_connection_credentials, hc, hp, hg, ha]
        | ok tok? =>
          cases ht : jTruthyOpt tok? <;>
            simp [get_access_token, get_connection_credentials, hc, hp, hg, ha, ht]

theorem refresh_access_token_log (env : Env) (s : DState) :
    (refresh_access_token env s).2.requestLog = s.requestLog := by
  unfold refresh_access_token
  exact get_access_token_log env _

theorem finalize_invariant (st : Nat) (r : String) (b : BodyKind) :
    ((finalizeResponse st r b).success = true → (finalizeResponse st r b).error = none)
  ∧ ((finalizeResponse st r b).success = false →
      ∃ msg, (finalizeResponse st r b).error = some msg) := by
  cases h : respOk st <;> simp [finalizeResponse, h]

theorem dispatch_invariant (env : Env) (method url : String) (hdrs : Headers)
    (params json_data : Option QDict) (data : Option String) (retry_auth : Bool)
    (s : DState) :
    let r := (dispatchWithHeaders env method url hdrs params json_data data retry_auth s).1
    (r.success = true → r.error = none) ∧ (r.success = false → ∃ msg, r.error = some msg) := by
  unfold dispatchWithHeaders
  dsimp only
  split
  · simp
  · split
    · split
      · simp
      · split
        · simp
        · exact finalize_invariant _ _ _
    · exact finalize_invariant _ _ _

theorem dispatch_timeout (env : Env) (method url : String) (hdrs : Headers)
    (params json_data : Option QDict) (data : Option String) (retry_auth : Bool)
    (s : DState) :
    ∀ r ∈ (dispatchWithHeaders env method url hdrs params json_data data retry_auth s).2.requestLog,
      r ∈ s.requestLog ∨ r.timeout = 30 := by
  unfold dispatchWithHeaders
  dsimp only
  split
  · intro r hr
    simp only [logRequest, List.mem_append, List.mem_singleton] at hr
    rcases hr with hr | hr
    · exact Or.inl hr
    · exact Or.inr (by rw [hr])
  · split
    · split
      · rename_i e s2 heq
        intro r hr
        have hlog : s2.requestLog =
            (logRequest ⟨method, url, hdrs, params, json_data, data, 30⟩ s).requestLog := by
          have := refresh_access_token_log env
            (logRequest ⟨method, url, hdrs, params, json_data, data, 30⟩ s)
          rw [heq] at this
          exact this
        rw [hlog] at hr
        simp only [logRequest, List.mem_append, List.mem_singleton] at hr
        rcases hr with hr | hr
        · exact Or.inl hr
        · exact Or.inr (by rw [hr])
      · rename_i tok s2 heq
        split
        all_goals
          intro r hr
          have hlog : s2.requestLog =
              (logRequest ⟨method, url, hdrs, params, json_data, data, 30⟩ s).requestLog := by
            have := refresh_access_token_log env
              (logRequest ⟨method, url, hdrs, params, json_data, data, 30⟩ s)
            rw [heq] at this
            exact this
          simp only [logRequest, List.mem_append, List.mem_singleton, hlog] at hr
          rcases hr with (hr | hr) | hr
          · exact Or.inl hr
          · exact Or.inr (by rw [hr])
          · exact Or.inr (by rw [hr])
    · intro r hr
      simp only [logRequest, List.mem_append, List.mem_singleton] at hr
      rcases hr with hr | hr
      · exact Or.inl hr
      · exact Or.inr (by rw [hr])

theorem make_api_request_timeout (env : Env) (method endpoint : String)
    (headers : Option Headers) (params json_data : Option QDict)
    (data : Option String) (retry_auth : Bool) (s : DState) :
    ∀ r ∈ (make_api_request env method endpoint headers params json_data data retry_auth s).2.requestLog,
      r ∈ s.requestLog ∨ r.timeout = 30 := by
  unfold make_api_request
  dsimp only
  split
  · exact dispatch_timeout env _ _ _ _ _ _ _ _
  · split
    · rename_i e s1 heq
      intro r hr
      have hlog : s1.requestLog = s.requestLog := by
        have := get_access_token_log env s
        rw [heq] at this
        exact this
      rw [hlog] at hr
      exact Or.inl hr
    · rename_i tok s1 heq
      intro r hr
      have hlog : s1.requestLog = s.requestLog := by
        have := get_access_token_log env s
        rw [heq] at this
        exact this
      rcases dispatch_timeout env _ _ _ _ _ _ _ _ r hr with h | h
      · rw [hlog] at h
        exact Or.inl h
      · exact Or.inr h

theorem dispatch_first_logged (env : Env) (method url : String) (hdrs : Headers)
    (params json_data : Option QDict) (data : Option String) (retry_auth : Bool)
    (s : DState) :
    ((dispatchWithHeaders env method url hdrs params json_data data retry_auth s).2.requestLog.drop
        s.requestLog.length).head? =
      some ⟨method, url, hdrs, params, json_data, data, 30⟩ := by
  unfold dispatchWithHeaders
  dsimp only
  split
  · simp [logRequest]
  · split
    · split
      · rename_i e s2 heq
        have hlog : s2.requestLog =
            (logRequest ⟨method, url, hdrs, params, json_data, data, 30⟩ s).requestLog := by
          have := refresh_access_token_log env
            (logRequest ⟨method, url, hdrs, params, json_data, data, 30⟩ s)
          rw [heq] at this
          exact this
        simp [hlog, logRequest]
      · rename_i tok s2 heq
        have hlog : s2.requestLog =
            (logRequest ⟨method, url, hdrs, params, json_data, data, 30⟩ s).requestLog := by
          have := refresh_access_token_log env
            (logRequest ⟨method, url, hdrs, params, json_data, data, 30⟩ s)
          rw [heq] at this
          exact this
        split <;> simp [logRequest, hlog, List.drop_append_of_le_length]
    · simp [logRequest]

/-! Query and JSON-body construction of the tool catalog, one builder per
mapping the source constructs, mirroring the statement order and the guard
(truthiness test or is-not-None test) of each parameter. -/

/-- Query mapping built by about_get. -/
def about_get_query (fields : Option String) : QDict :=
  let p : QDict := []
  let p := qputStr p "fields" fields
  p

/-- Query mapping built by accessproposals_list. -/
def accessproposals_list_query (page_token : Option String) (page_size : Option Int) : QDict :=
  let p : QDict := []
  let p := qputStr p "pageToken" page_token
  let p := qputInt p "pageSize" page_size
  p

/-- JSON body built by accessproposals_resolve. -/
def accessproposals_resolve_body (action : String) (send_notification : Option Bool) : QDict :=
  let p : QDict := [("action", .str action)]
  let p := qputBoolN p "sendNotification" send_notification
  p

/-- Query mapping built by apps_list. -/
def apps_list_query (app_filter_extensions app_filter_mime_types language_code : Option String) : QDict :=
  let p : QDict := []
  let p := qputStr p "appFilterExtensions" app_filter_extensions
  let p := qputStr p "appFilterMimeTypes" app_filter_mime_types
  let p := qputStr p "languageCode" language_code
  p

/-- Query mapping built by changes_get_start_page_token. -/
def changes_get_start_page_token_query (drive_id : Option String)
    (supports_all_drives : Option Bool) : QDict :=
  let p : QDict := []
  let p := qputStr p "driveId" drive_id
  let p := qputBoolN p "supportsAllDrives" supports_all_drives
  p

/-- Query mapping built by changes_list. -/
def changes_list_query (page_token : String) (drive_id : Option String)
    (include_corpus_removals include_items_from_all_drives include_removed : Option Bool)
    (page_size : Option Int) (restrict_to_my_drive : Option Bool)
    (spaces : Option String) (supports_all_drives : Option Bool) : QDict :=
  let p : QDict := [("pageToken", .str page_token)]
  let p := qputStr p "driveId" drive_id
  let p := qputBoolN p "includeCorpusRemovals" include_corpus_removals
  let p := qputBoolN p "includeItemsFromAllDrives" include_items_from_all_drives
  let p := qputBoolN p "includeRemoved" include_removed
  let p := qputInt p "pageSize" page_size
  let p := qputBoolN p "restrictToMyDrive" restrict_to_my_drive
  let p := qputStr p "spaces" spaces
  let p := qputBoolN p "supportsAllDrives" supports_all_drives
  p

/-- Query mapping built by changes_watch (same construction as
changes_list). -/
def changes_watch_query (page_token : String) (drive_id : Option String)
    (include_corpus_removals include_items_from_all_drives include_removed : Option Bool)
    (page_size : Option Int) (restrict_to_my_drive : Option Bool)
    (spaces : Option String) (supports_all_drives : Option Bool) : QDict :=
  let p : QDict := [("pageToken", .str page_token)]
  let p := qputStr p "driveId" drive_id
  let p := qputBoolN p "includeCorpusRemovals" include_corpus_removals
  let p := qputBoolN p "includeItemsFromAllDrives" include_items_from_all_drives
  let p := qputBoolN p "includeRemoved" include_removed
  let p := qputInt p "pageSize" page_size
  let p := qputBoolN p "restrictToMyDrive" restrict_to_my_drive
  let p := qputStr p "spaces" spaces
  let p := qputBoolN p "supportsAllDrives" supports_all_drives
  p

/-- JSON body built by changes_watch. -/
def changes_watch_body (channel_id channel_type address : String) : QDict :=
  [("id", .str channel_id), ("type", .str channel_type), ("address", .str address)]

/-- JSON body built by channels_stop. -/
def channels_stop_body (channel_id resource_id : String) : QDict :=
  [("id", .str channel_id), ("resourceId", .str resource_id)]

/-- JSON body built by comments_create. -/
def comments_create_body (content : String) (anchor : Option String)
    (quoted_file_content : Option QDict) : QDict :=
  let p : QDict := [("content", .str content)]
  let p := qputStr p "anchor" anchor
  let p := qputObj p "quotedFileContent" quoted_file_content
  p

/-- Query mapping built by comments_get. -/
def comments_get_query (include_deleted : Option Bool) : QDict :=
  let p : QDict := []
  let p := qputBoolN p "includeDeleted" include_deleted
  p

/-- Query mapping built by comments_list. -/
def comments_list_query (include_deleted : Option Bool) (page_size : Option Int)
    (page_token start_modified_time : Option String) : QDict :=
  let p : QDict := []
  let p := qputBoolN p "includeDeleted" include_deleted
  let p := qputInt p "pageSize" page_size
  let p := qputStr p "pageToken" page_token
  let p := qputStr p "startModifiedTime" start_modified_time
  p

/-- JSON body built by comments_update. -/
def comments_update_body (content : String) : QDict := [("content", .str content)]

/-- Query mapping built by drives_create. -/
def drives_create_query (request_id : String) : QDict := [("requestId", .str request_id)]

/-- JSON body built by drives_create. -/
def drives_create_body (name : String) (hidden : Option Bool) : QDict :=
  let p : QDict := [("name", .str name)]
  let p := qputBoolN p "hidden" hidden
  p

/-- Query mapping built by drives_delete. -/
def drives_delete_query (use_domain_admin_access allow_item_deletion : Option Bool) : QDict :=
  let p : QDict := []
  let p := qputBoolN p "useDomainAdminAccess" use_domain_admin_access
  let p := qputBoolN p "allowItemDeletion" allow_item_deletion
  p

/-- Query mapping built by drives_get. -/
def drives_get_query (use_domain_admin_access : Option Bool) : QDict :=
  let p : QDict := []
  let p := qputBoolN p "useDomainAdminAccess" use_domain_admin_access
  p

/-- Query mapping built by drives_list. -/
def drives_list_query (page_size : Option Int) (page_token q : Option String)
    (use_domain_admin_access : Option Bool) : QDict :=
  let p : QDict := []
  let p := qputInt p "pageSize" page_size
  let p := qputStr p "pageToken" page_token
  let p := qputStr p "q" q
  let p := qputBoolN p "useDomainAdminAccess" use_domain_admin_access
  p

/-- Query mapping built by drives_update. -/
def drives_update_query (use_domain_admin_access : Option Bool) : QDict :=
  let p : QDict := []
  let p := qputBoolN p "useDomainAdminAccess" use_domain_admin_access
  p

/-- JSON body built by drives_update (name is optional and
truthiness-guarded). -/
def drives_update_body (name : Option String) : QDict :=
  let p : QDict := []
  let p := qputStr p "name" name
  p

/-- Query mapping built by files_copy. -/
def files_copy_query (ignore_default_visibility keep_revision_forever : Option Bool)
    (ocr_language : Option String) (supports_all_drives : Option Bool) : QDict :=
  let p : QDict := []
  let p := qputBoolN p "ignoreDefaultVisibility" ignore_default_visibility
  let p := qputBoolN p "keepRevisionForever" keep_revision_forever
  let p := qputStr p "ocrLanguage" ocr_language
  let p := qputBoolN p "supportsAllDrives" supports_all_drives
  p

/-- JSON body built by files_copy. -/
def files_copy_body (name : Option String) (parents : Option (List String)) : QDict :=
  let p : QDict := []
  let p := qputStr p "name" name
  let p := qputList p "parents" parents
  p

/-- Query mapping built by files_create. -/
def files_create_query (ignore_default_visibility keep_revision_forever : Option Bool)
    (ocr_language : Option String)
    (supports_all_drives use_content_as_indexable_text : Option Bool) : QDict :=
  let p : QDict := []
  let p := qputBoolN p "ignoreDefaultVisibility" ignore_default_visibility
  let p := qputBoolN p "keepRevisionForever" keep_revision_forever
  let p := qputStr p "ocrLanguage" ocr_language
  let p := qputBoolN p "supportsAllDrives" supports_all_drives
  let p := qputBoolN p "useContentAsIndexableText" use_content_as_indexable_text
  p

/-- JSON body built by files_create (name is required, parents and
mime_type truthiness-guarded). -/
def files_create_body (name : String) (parents : Option (List String))
    (mime_type : Option String) : QDict :=
  let p : QDict := [("name", .str name)]
  let p := qputList p "parents" parents
  let p := qputStr p "mimeType" mime_type
  p

/-- Query mapping built by files_delete. -/
def files_delete_query (supports_all_drives : Option Bool) : QDict :=
  let p : QDict := []
  let p := qputBoolN p "supportsAllDrives" supports_all_drives
  p

/-- Query mapping built by files_download. -/
def files_download_query (mime_type revision_id : Option String) : QDict :=
  let p : QDict := []
  let p := qputStr p "mimeType" mime_type
  let p := qputStr p "revisionId" revision_id
  p

/-- Query mapping built by files_empty_trash. -/
def files_empty_trash_query (drive_id : Option String) : QDict :=
  let p : QDict := []
  let p := qputStr p "driveId" drive_id
  p

/-- Query mapping built by files_export. -/
def files_export_query (mime_type : String) : QDict := [("mimeType", .str mime_type)]

/-- Query mapping built by files_generate_ids. -/
def files_generate_ids_query (count : Option Int) (space type : Option String) : QDict :=
  let p : QDict := []
  let p := qputInt p "count" count
  let p := qputStr p "space" space
  let p := qputStr p "type" type
  p

/-- Query mapping built by files_get. -/
def files_get_query (acknowledge_abuse supports_all_drives : Option Bool)
    (fields : Option String) : QDict :=
  let p : QDict := []
  let p := qputBoolN p "acknowledgeAbuse" acknowledge_abuse
  let p := qputBoolN p "supportsAllDrives" supports_all_drives
  let p := qputStr p "fields" fields
  p

/-- Query mapping built by files_list. -/
def files_list_query (corpora drive_id : Option String)
    (include_items_from_all_drives : Option Bool) (order_by : Option String)
    (page_size : Option Int) (page_token q spaces : Option String)
    (supports_all_drives : Option Bool) : QDict :=
  let p : QDict := []
  let p := qputStr p "corpora" corpora
  let p := qputStr p "driveId" drive_id
  let p := qputBoolN p "includeItemsFromAllDrives" include_items_from_all_drives
  let p := qputStr p "orderBy" order_by
  let p := qputInt p "pageSize" page_size
  let p := qputStr p "pageToken" page_token
  let p := qputStr p "q" q
  let p := qputStr p "spaces" spaces
  let p := qputBoolN p "supportsAllDrives" supports_all_drives
  p

/-- Query mapping built by files_list_labels. -/
def files_list_labels_query (max_results : Option Int) (page_token : Option String) : QDict :=
  let p : QDict := []
  let p := qputInt p "maxResults" max_results
  let p := qputStr p "pageToken" page_token
  p

/-- JSON body built by files_modify_labels (both definitions). -/
def files_modify_labels_body (label_modifications : List QDict) : QDict :=
  [("labelModifications", .arr (label_modifications.map JValue.obj))]

/-- Query mapping built by files_update (both definitions). -/
def files_update_query (add_parents remove_parents : Option String)
    (keep_revision_forever : Option Bool) (ocr_language : Option String)
    (supports_all_drives use_content_as_indexable_text : Option Bool) : QDict :=
  let p : QDict := []
  let p := qputStr p "addParents" add_parents
  let p := qputStr p "removeParents" remove_parents
  let p := qputBoolN p "keepRevisionForever" keep_revision_forever
  let p := qputStr p "ocrLanguage" ocr_language
  let p := qputBoolN p "supportsAllDrives" supports_all_drives
  let p := qputBoolN p "useContentAsIndexableText" use_content_as_indexable_text
  p

/-- JSON body built by files_update (both definitions). -/
def files_update_body (name : Option String) : QDict :=
  let p : QDict := []
  let p := qputStr p "name" name
  p

/-- Query mapping built by files_watch (both definitions). -/
def files_watch_query (supports_all_drives acknowledge_abuse : Option Bool) : QDict :=
  let p : QDict := []
  let p := qputBoolN p "supportsAllDrives" supports_all_drives
  let p := qputBoolN p "acknowledgeAbuse" acknowledge_abuse
  p

/-- JSON body built by files_watch (both definitions). -/
def files_watch_body (channel_id channel_type address : String) : QDict :=
  [("id", .str channel_id), ("type", .str channel_type), ("address", .str address)]

/-- Query mapping built by permissions_create. -/
def permissions_create_query (email_message : Option String)
    (move_to_new_owners_root send_notification_email supports_all_drives
     transfer_ownership use_domain_admin_access : Option Bool) : QDict :=
  let p : QDict := []
  let p := qputStr p "emailMessage" email_message
  let p := qputBoolN p "moveToNewOwnersRoot" move_to_new_owners_root
  let p := qputBoolN p "sendNotificationEmail" send_notification_email
  let p := qputBoolN p "supportsAllDrives" supports_all_drives
  let p := qputBoolN p "transferOwnership" transfer_ownership
  let p := qputBoolN p "useDomainAdminAccess" use_domain_admin_access
  p

/-- JSON body built by permissions_create (role and type required,
email_address and domain truthiness-guarded). -/
def permissions_create_body (role type : String) (email_address domain : Option String) : QDict :=
  let p : QDict := [("role", .str role), ("type", .str type)]
  let p := qputStr p "emailAddress" email_address
  let p := qputStr p "domain" domain
  p

/-- Query mapping built by permissions_delete. -/
def permissions_delete_query (supports_all_drives use_domain_admin_access : Option Bool) : QDict :=
  let p : QDict := []
  let p := qputBoolN p "supportsAllDrives" supports_all_drives
  let p := qputBoolN p "useDomainAdminAccess" use_domain_admin_access
  p

/-- Query mapping built by permissions_get. -/
def permissions_get_query (supports_all_drives use_domain_admin_access : Option Bool) : QDict :=
  let p : QDict := []
  let p := qputBoolN p "supportsAllDrives" supports_all_drives
  let p := qputBoolN p "useDomainAdminAccess" use_domain_admin_access
  p

/-- Query mapping built by permissions_list. -/
def permissions_list_query (page_size : Option Int) (page_token : Option String)
    (supports_all_drives use_domain_admin_access : Option Bool) : QDict :=
  let p : QDict := []
  let p := qputInt p "pageSize" page_size
  let p := qputStr p "pageToken" page_token
  let p := qputBoolN p "supportsAllDrives" supports_all_drives
  let p := qputBoolN p "useDomainAdminAccess" use_domain_admin_access
  p

/-- Query mapping built by permissions_update. -/
def permissions_update_query (remove_expiration supports_all_drives
    transfer_ownership use_domain_admin_access : Option Bool) : QDict :=
  let p : QDict := []
  let p := qputBoolN p "removeExpiration" remove_expiration
  let p := qputBoolN p "supportsAllDrives" supports_all_drives
  let p := qputBoolN p "transferOwnership" transfer_ownership
  let p := qputBoolN p "useDomainAdminAccess" use_domain_admin_access
  p

/-- JSON body built by permissions_update (role truthiness-guarded). -/
def permissions_update_body (role : Option String) : QDict :=
  let p : QDict := []
  let p := qputStr p "role" role
  p

/-- JSON body built by replies_create. -/
def replies_create_body (content : String) : QDict := [("content", .str content)]

/-- Query mapping built by replies_get. -/
def replies_get_query (include_deleted : Option Bool) : QDict :=
  let p : QDict := []
  let p := qputBoolN p "includeDeleted" include_deleted
  p

/-- Query mapping built by replies_list. -/
def replies_list_query (include_deleted : Option Bool) (page_size : Option Int)
    (page_token : Option String) : QDict :=
  let p : QDict := []
  let p := qputBoolN p "includeDeleted" include_deleted
  let p := qputInt p "pageSize" page_size
  let p := qputStr p "pageToken" page_token
  p

/-- JSON body built by replies_update. -/
def replies_update_body (content : String) : QDict := [("content", .str content)]

/-- Query mapping built by revisions_get. -/
def revisions_get_query (acknowledge_abuse : Option Bool) : QDict :=
  let p : QDict := []
  let p := qputBoolN p "acknowledgeAbuse" acknowledge_abuse
  p

/-- Query mapping built by revisions_list. -/
def revisions_list_query (page_size : Option Int) (page_token : Option String) : QDict :=
  let p : QDict := []
  let p := qputInt p "pageSize" page_size
  let p := qputStr p "pageToken" page_token
  p

/-- JSON body built by revisions_update (all three parameters guarded by
is-not-None tests). -/
def revisions_update_body (keep_forever published published_outside_domain : Option Bool) : QDict :=
  let p : QDict := []
  let p := qputBoolN p "keepForever" keep_forever
  let p := qputBoolN p "published" published
  let p := qputBoolN p "publishedOutsideDomain" published_outside_domain
  p


theorem hasKeyQ_cons (k1 : String) (v : JValue) (m : QDict) (k : String) :
    hasKeyQ ((k1, v) :: m) k = (k1 == k || hasKeyQ m k) := by
  simp [hasKeyQ]

/-! Per-builder key-presence lemmas: each optional parameter key is in
the constructed mapping exactly when its guard holds. -/

theorem about_get_query_keys (fields : Option String) :
    hasKeyQ (about_get_query fields) "fields" = truthyStr fields := by
  simp [about_get_query, hasKeyQ_cons, hasKeyQ_qputStr, hasKeyQ_qputInt, hasKeyQ_qputBoolN,
    hasKeyQ_qputList, hasKeyQ_qputObj, hasKeyQ_qput, hasKeyQ_nil]

theorem accessproposals_list_query_keys (page_token : Option String) (page_size : Option Int) :
    hasKeyQ (accessproposals_list_query page_token page_size) "pageToken" = truthyStr page_token
  ∧ hasKeyQ (accessproposals_list_query page_token page_size) "pageSize" = truthyInt page_size := by
  simp [accessproposals_list_query, hasKeyQ_cons, hasKeyQ_qputStr, hasKeyQ_qputInt, hasKeyQ_qputBoolN,
    hasKeyQ_qputList, hasKeyQ_qputObj, hasKeyQ_qput, hasKeyQ_nil]

theorem accessproposals_resolve_body_keys (action : String) (send_notification : Option Bool) :
    hasKeyQ (accessproposals_resolve_body action send_notification) "sendNotification" = send_notification.isSome := by
  simp [accessproposals_resolve_body, hasKeyQ_cons, hasKeyQ_qputStr, hasKeyQ_qputInt, hasKeyQ_qputBoolN,
    hasKeyQ_qputList, hasKeyQ_qputObj, hasKeyQ_qput, hasKeyQ_nil]

theorem apps_list_query_keys (app_filter_extensions app_filter_mime_types language_code : Option String) :
    hasKeyQ (apps_list_query app_filter_extensions app_filter_mime_types language_code) "appFilterExtensions" = truthyStr app_filter_extensions
  ∧ hasKeyQ (apps_list_query app_filter_extensions app_filter_mime_types language_code) "appFilterMimeTypes" = truthyStr app_filter_mime_types
  ∧ hasKeyQ (apps_list_query app_filter_extensions app_filter_mime_types language_code) "languageCode" = truthyStr language_code := by
  simp [apps_list_query, hasKeyQ_cons, hasKeyQ_qputStr, hasKeyQ_qputInt, hasKeyQ_qputBoolN,
    hasKeyQ_qputList, hasKeyQ_qputObj, hasKeyQ_qput, hasKeyQ_nil]

theorem changes_get_start_page_token_query_keys (drive_id : Option String) (supports_all_drives : Option Bool) :
    hasKeyQ (changes_get_start_page_token_query drive_id supports_all_drives) "driveId" = truthyStr drive_id
  ∧ hasKeyQ (changes_get_start_page_token_query drive_id supports_all_drives) "supportsAllDrives" = supports_all_drives.isSome := by
  simp [changes_get_start_page_token_query, hasKeyQ_cons, hasKeyQ_qputStr, hasKeyQ_qputInt, hasKeyQ_qputBoolN,
    hasKeyQ_qputList, hasKeyQ_qputObj, hasKeyQ_qput, hasKeyQ_nil]

theorem changes_list_query_keys (page_token : String) (drive_id : Option String) (include_corpus_removals include_items_from_all_drives include_removed : Option Bool) (page_size : Option Int) (restrict_to_my_drive : Option Bool) (spaces : Option String) (supports_all_drives : Option Bool) :
    hasKeyQ (changes_list_query page_token drive_id include_corpus_removals include_items_from_all_drives include_removed page_size restrict_to_my_drive spaces supports_all_drives) "driveId" = truthyStr drive_id
  ∧ hasKeyQ (changes_list_query page_token drive_id include_corpus_removals include_items_from_all_drives include_removed page_size restrict_to_my_drive spaces supports_all_drives) "includeCorpusRemovals" = include_corpus_removals.isSome
  ∧ hasKeyQ (changes_list_query page_token drive_id include_corpus_removals include_items_from_all_drives include_removed page_size restrict_to_my_drive spaces supports_all_drives) "includeItemsFromAllDrives" = include_items_from_all_drives.isSome
  ∧ hasKeyQ (changes_list_query page_token drive_id include_corpus_removals include_items_from_all_drives include_removed page_size restrict_to_my_drive spaces supports_all_drives) "includeRemoved" = include_removed.isSome
  ∧ hasKeyQ (changes_list_query page_token drive_id include_corpus_removals include_items_from_all_drives include_removed page_size restrict_to_my_drive spaces supports_all_drives) "pageSize" = truthyInt page_size
  ∧ hasKeyQ (changes_list_query page_token drive_id include_corpus_removals include_items_from_all_drives include_removed page_size restrict_to_my_drive spaces supports_all_drives) "restrictToMyDrive" = restrict_to_my_drive.isSome
  ∧ hasKeyQ (changes_list_query page_token drive_id include_corpus_removals include_items_from_all_drives include_removed page_size restrict_to_my_drive spaces supports_all_drives) "spaces" = truthyStr spaces
  ∧ hasKeyQ (changes_list_query page_token drive_id include_corpus_removals include_items_from_all_drives include_removed page_size restrict_to_my_drive spaces supports_all_drives) "supportsAllDrives" = supports_all_drives.isSome := by
  simp [changes_list_query, hasKeyQ_cons, hasKeyQ_qputStr, hasKeyQ_qputInt, hasKeyQ_qputBoolN,
    hasKeyQ_qputList, hasKeyQ_qputObj, hasKeyQ_qput, hasKeyQ_nil]

theorem changes_watch_query_keys (page_token : String) (drive_id : Option String) (include_corpus_removals include_items_from_all_drives include_removed : Option Bool) (page_size : Option Int) (restrict_to_my_drive : Option Bool) (spaces : Option String) (supports_all_drives : Option Bool) :
    hasKeyQ (changes_watch_query page_token drive_id include_corpus_removals include_items_from_all_drives include_removed page_size restrict_to_my_drive spaces supports_all_drives) "driveId" = truthyStr drive_id
  ∧ hasKeyQ (changes_watch_query page_token drive_id include_corpus_removals include_items_from_all_drives include_removed page_size restrict_to_my_drive spaces supports_all_drives) "includeCorpusRemovals" = include_corpus_removals.isSome
  ∧ hasKeyQ (changes_watch_query page_token drive_id include_corpus_removals include_items_from_all_drives include_removed page_size restrict_to_my_drive spaces supports_all_drives) "includeItemsFromAllDrives" = include_items_from_all_drives.isSome
  ∧ hasKeyQ (changes_watch_query page_token drive_id include_corpus_removals include_items_from_all_drives include_removed page_size restrict_to_my_drive spaces supports_all_drives) "includeRemoved" = include_removed.isSome
  ∧ hasKeyQ (changes_watch_query page_token drive_id include_corpus_removals include_items_from_all_drives include_removed page_size restrict_to_my_drive spaces supports_all_drives) "pageSize" = truthyInt page_size
  ∧ hasKeyQ (changes_watch_query page_token drive_id include_corpus_removals include_items_from_all_drives include_removed page_size restrict_to_my_drive spaces supports_all_drives) "restrictToMyDrive" = restrict_to_my_drive.isSome
  ∧ hasKeyQ (changes_watch_query page_token drive_id include_corpus_removals include_items_from_all_drives include_removed page_size restrict_to_my_drive spaces supports_all_drives) "spaces" = truthyStr spaces
  ∧ hasKeyQ (changes_watch_query page_token drive_id include_corpus_removals include_items_from_all_drives include_removed page_size restrict_to_my_drive spaces supports_all_drives) "supportsAllDrives" = supports_all_drives.isSome := by
  simp [changes_watch_query, hasKeyQ_cons, hasKeyQ_qputStr, hasKeyQ_qputInt, hasKeyQ_qputBoolN,
    hasKeyQ_qputList, hasKeyQ_qputObj, hasKeyQ_qput, hasKeyQ_nil]

theorem comments_create_body_keys (content : String) (anchor : Option String) (quoted_file_content : Option QDict) :
    hasKeyQ (comments_create_body content anchor quoted_file_content) "anchor" = truthyStr anchor
  ∧ hasKeyQ (comments_create_body content anchor quoted_file_content) "quotedFileContent" = truthyObj quoted_file_content := by
  simp [comments_create_body, hasKeyQ_cons, hasKeyQ_qputStr, hasKeyQ_qputInt, hasKeyQ_qputBoolN,
    hasKeyQ_qputList, hasKeyQ_qputObj, hasKeyQ_qput, hasKeyQ_nil]

theorem comments_get_query_keys (include_deleted : Option Bool) :
    hasKeyQ (comments_get_query include_deleted) "includeDeleted" = include_deleted.isSome := by
  simp [comments_get_query, hasKeyQ_cons, hasKeyQ_qputStr, hasKeyQ_qputInt, hasKeyQ_qputBoolN,
    hasKeyQ_qputList, hasKeyQ_qputObj, hasKeyQ_qput, hasKeyQ_nil]

theorem comments_list_query_keys (include_deleted : Option Bool) (page_size : Option Int) (page_token start_modified_time : Option String) :
    hasKeyQ (comments_list_query include_deleted page_size page_token start_modified_time) "includeDeleted" = include_deleted.isSome
  ∧ hasKeyQ (comments_list_query include_deleted page_size page_token start_modified_time) "pageSize" = truthyInt page_size
  ∧ hasKeyQ (comments_list_query include_deleted page_size page_token start_modified_time) "pageToken" = truthyStr page_token
  ∧ hasKeyQ (comments_list_query include_deleted page_size page_token start_modified_time) "startModifiedTime" = truthyStr start_modified_time := by
  simp [comments_list_query, hasKeyQ_cons, hasKeyQ_qputStr, hasKeyQ_qputInt, hasKeyQ_qputBoolN,
    hasKeyQ_qputList, hasKeyQ_qputObj, hasKeyQ_qput, hasKeyQ_nil]

theorem drives_create_body_keys (name : String) (hidden : Option Bool) :
    hasKeyQ (drives_create_body name hidden) "hidden" = hidden.isSome := by
  simp [drives_create_body, hasKeyQ_cons, hasKeyQ_qputStr, hasKeyQ_qputInt, hasKeyQ_qputBoolN,
    hasKeyQ_qputList, hasKeyQ_qputObj, hasKeyQ_qput, hasKeyQ_nil]

theorem drives_delete_query_keys (use_domain_admin_access allow_item_deletion : Option Bool) :
    hasKeyQ (drives_delete_query use_domain_admin_access allow_item_deletion) "useDomainAdminAccess" = use_domain_admin_access.isSome
  ∧ hasKeyQ (drives_delete_query use_domain_admin_access allow_item_deletion) "allowItemDeletion" = allow_item_deletion.isSome := by
  simp [drives_delete_query, hasKeyQ_cons, hasKeyQ_qputStr, hasKeyQ_qputInt, hasKeyQ_qputBoolN,
    hasKeyQ_qputList, hasKeyQ_qputObj, hasKeyQ_qput, hasKeyQ_nil]

theorem drives_get_query_keys (use_domain_admin_access : Option Bool) :
    hasKeyQ (drives_get_query use_domain_admin_access) "useDomainAdminAccess" = use_domain_admin_access.isSome := by
  simp [drives_get_query, hasKeyQ_cons, hasKeyQ_qputStr, hasKeyQ_qputInt, hasKeyQ_qputBoolN,
    hasKeyQ_qputList, hasKeyQ_qputObj, hasKeyQ_qput, hasKeyQ_nil]

theorem drives_list_query_keys (page_size : Option Int) (page_token q : Option String) (use_domain_admin_access : Option Bool) :
    hasKeyQ (drives_list_query page_size page_token q use_domain_admin_access) "pageSize" = truthyInt page_size
  ∧ hasKeyQ (drives_list_query page_size page_token q use_domain_admin_access) "pageToken" = truthyStr page_token
  ∧ hasKeyQ (drives_list_query page_size page_token q use_domain_admin_access) "q" = truthyStr q
  ∧ hasKeyQ (drives_list_query page_size page_token q use_domain_admin_access) "useDomainAdminAccess" = use_domain_admin_access.isSome := by
  simp [drives_list_query, hasKeyQ_cons, hasKeyQ_qputStr, hasKeyQ_qputInt, hasKeyQ_qputBoolN,
    hasKeyQ_qputList, hasKeyQ_qputObj, hasKeyQ_qput, hasKeyQ_nil]

theorem drives_update_query_keys (use_domain_admin_access : Option Bool) :
    hasKeyQ (drives_update_query use_domain_admin_access) "useDomainAdminAccess" = use_domain_admin_access.isSome := by
  simp [drives_update_query, hasKeyQ_cons, hasKeyQ_qputStr, hasKeyQ_qputInt, hasKeyQ_qputBoolN,
    hasKeyQ_qputList, hasKeyQ_qputObj, hasKeyQ_qput, hasKeyQ_nil]

theorem drives_update_body_keys (name : Option String) :
    hasKeyQ (drives_update_body name) "name" = truthyStr name := by
  simp [drives_update_body, hasKeyQ_cons, hasKeyQ_qputStr, hasKeyQ_qputInt, hasKeyQ_qputBoolN,
    hasKeyQ_qputList, hasKeyQ_qputObj, hasKeyQ_qput, hasKeyQ_nil]

theorem files_copy_query_keys (ignore_default_visibility keep_revision_forever : Option Bool) (ocr_language : Option String) (supports_all_drives : Option Bool) :
    hasKeyQ (files_copy_query ignore_default_visibility keep_revision_forever ocr_language supports_all_drives) "ignoreDefaultVisibility" = ignore_default_visibility.isSome
  ∧ hasKeyQ (files_copy_query ignore_default_visibility keep_revision_forever ocr_language supports_all_drives) "keepRevisionForever" = keep_revision_forever.isSome
  ∧ hasKeyQ (files_copy_query ignore_default_visibility keep_revision_forever ocr_language supports_all_drives) "ocrLanguage" = truthyStr ocr_language
  ∧ hasKeyQ (files_copy_query ignore_default_visibility keep_revision_forever ocr_language supports_all_drives) "supportsAllDrives" = supports_all_drives.isSome := by
  simp [files_copy_query, hasKeyQ_cons, hasKeyQ_qputStr, hasKeyQ_qputInt, hasKeyQ_qputBoolN,
    hasKeyQ_qputList, hasKeyQ_qputObj, hasKeyQ_qput, hasKeyQ_nil]

theorem files_copy_body_keys (name : Option String) (parents : Option (List String)) :
    hasKeyQ (files_copy_body name parents) "name" = truthyStr name
  ∧ hasKeyQ (files_copy_body name parents) "parents" = truthyList parents := by
  simp [files_copy_body, hasKeyQ_cons, hasKeyQ_qputStr, hasKeyQ_qputInt, hasKeyQ_qputBoolN,
    hasKeyQ_qputList, hasKeyQ_qputObj, hasKeyQ_qput, hasKeyQ_nil]

theorem files_create_query_keys (ignore_default_visibility keep_revision_forever : Option Bool) (ocr_language : Option String) (supports_all_drives use_content_as_indexable_text : Option Bool) :
    hasKeyQ (files_create_query ignore_default_visibility keep_revision_forever ocr_language supports_all_drives use_content_as_indexable_text) "ignoreDefaultVisibility" = ignore_default_visibility.isSome
  ∧ hasKeyQ (files_create_query ignore_default_visibility keep_revision_forever ocr_language supports_all_drives use_content_as_indexable_text) "keepRevisionForever" = keep_revision_forever.isSome
  ∧ hasKeyQ (files_create_query ignore_default_visibility keep_revision_forever ocr_language supports_all_drives use_content_as_indexable_text) "ocrLanguage" = truthyStr ocr_language
  ∧ hasKeyQ (files_create_query ignore_default_visibility keep_revision_forever ocr_language supports_all_drives use_content_as_indexable_text) "supportsAllDrives" = supports_all_drives.isSome
  ∧ hasKeyQ (files_create_query ignore_default_visibility keep_revision_forever ocr_language supports_all_drives use_content_as_indexable_text) "useContentAsIndexableText" = use_content_as_indexable_text.isSome := by
  simp [files_create_query, hasKeyQ_cons, hasKeyQ_qputStr, hasKeyQ_qputInt, hasKeyQ_qputBoolN,
    hasKeyQ_qputList, hasKeyQ_qputObj, hasKeyQ_qput, hasKeyQ_nil]

theorem files_create_body_keys (name : String) (parents : Option (List String)) (mime_type : Option String) :
    hasKeyQ (files_create_body name parents mime_type) "parents" = truthyList parents
  ∧ hasKeyQ (files_create_body name parents mime_type) "mimeType" = truthyStr mime_type := by
  simp [files_create_body, hasKeyQ_cons, hasKeyQ_qputStr, hasKeyQ_qputInt, hasKeyQ_qputBoolN,
    hasKeyQ_qputList, hasKeyQ_qputObj, hasKeyQ_qput, hasKeyQ_nil]

theorem files_delete_query_keys (supports_all_drives : Option Bool) :
    hasKeyQ (files_delete_query supports_all_drives) "supportsAllDrives" = supports_all_drives.isSome := by
  simp [files_delete_query, hasKeyQ_cons, hasKeyQ_qputStr, hasKeyQ_qputInt, hasKeyQ_qputBoolN,
    hasKeyQ_qputList, hasKeyQ_qputObj, hasKeyQ_qput, hasKeyQ_nil]

theorem files_download_query_keys (mime_type revision_id : Option String) :
    hasKeyQ (files_download_query mime_type revision_id) "mimeType" = truthyStr mime_type
  ∧ hasKeyQ (files_download_query mime_type revision_id) "revisionId" = truthyStr revision_id := by
  simp [files_download_query, hasKeyQ_cons, hasKeyQ_qputStr, hasKeyQ_qputInt, hasKeyQ_qputBoolN,
    hasKeyQ_qputList, hasKeyQ_qputObj, hasKeyQ_qput, hasKeyQ_nil]

theorem files_empty_trash_query_keys (drive_id : Option String) :
    hasKeyQ (files_empty_trash_query drive_id) "driveId" = truthyStr drive_id := by
  simp [files_empty_trash_query, hasKeyQ_cons, hasKeyQ_qputStr, hasKeyQ_qputInt, hasKeyQ_qputBoolN,
    hasKeyQ_qputList, hasKeyQ_qputObj, hasKeyQ_qput, hasKeyQ_nil]

theorem files_generate_ids_query_keys (count : Option Int) (space type : Option String) :
    hasKeyQ (files_generate_ids_query count space type) "count" = truthyInt count
  ∧ hasKeyQ (files_generate_ids_query count space type) "space" = truthyStr space
  ∧ hasKeyQ (files_generate_ids_query count space type) "type" = truthyStr type := by
  simp [files_generate_ids_query, hasKeyQ_cons, hasKeyQ_qputStr, hasKeyQ_qputInt, hasKeyQ_qputBoolN,
    hasKeyQ_qputList, hasKeyQ_qputObj, hasKeyQ_qput, hasKeyQ_nil]

theorem files_get_query_keys (acknowledge_abuse supports_all_drives : Option Bool) (fields : Option String) :
    hasKeyQ (files_get_query acknowledge_abuse supports_all_drives fields) "acknowledgeAbuse" = acknowledge_abuse.isSome
  ∧ hasKeyQ (files_get_query acknowledge_abuse supports_all_drives fields) "supportsAllDrives" = supports_all_drives.isSome
  ∧ hasKeyQ (files_get_query acknowledge_abuse supports_all_drives fields) "fields" = truthyStr fields := by
  simp [files_get_query, hasKeyQ_cons, hasKeyQ_qputStr, hasKeyQ_qputInt, hasKeyQ_qputBoolN,
    hasKeyQ_qputList, hasKeyQ_qputObj, hasKeyQ_qput, hasKeyQ_nil]

theorem files_list_query_keys (corpora drive_id : Option String) (include_items_from_all_drives : Option Bool) (order_by : Option String) (page_size : Option Int) (page_token q spaces : Option String) (supports_all_drives : Option Bool) :
    hasKeyQ (files_list_query corpora drive_id include_items_from_all_drives order_by page_size page_token q spaces supports_all_drives) "corpora" = truthyStr corpora
  ∧ hasKeyQ (files_list_query corpora drive_id include_items_from_all_drives order_by page_size page_token q spaces supports_all_drives) "driveId" = truthyStr drive_id
  ∧ hasKeyQ (files_list_query corpora drive_id include_items_from_all_drives order_by page_size page_token q spaces supports_all_drives) "includeItemsFromAllDrives" = include_items_from_all_drives.isSome
  ∧ hasKeyQ (files_list_query corpora drive_id include_items_from_all_drives order_by page_size page_token q spaces supports_all_drives) "orderBy" = truthyStr order_by
  ∧ hasKeyQ (files_list_query corpora drive_id include_items_from_all_drives order_by page_size page_token q spaces supports_all_drives) "pageSize" = truthyInt page_size
  ∧ hasKeyQ (files_list_query corpora drive_id include_items_from_all_drives order_by page_size page_token q spaces supports_all_drives) "pageToken" = truthyStr page_token
  ∧ hasKeyQ (files_list_query corpora drive_id include_items_from_all_drives order_by page_size page_token q spaces supports_all_drives) "q" = truthyStr q
  ∧ hasKeyQ (files_list_query corpora drive_id include_items_from_all_drives order_by page_size page_token q spaces supports_all_drives) "spaces" = truthyStr spaces
  ∧ hasKeyQ (files_list_query corpora drive_id include_items_from_all_drives order_by page_size page_token q spaces supports_all_drives) "supportsAllDrives" = supports_all_drives.isSome := by
  simp [files_list_query, hasKeyQ_cons, hasKeyQ_qputStr, hasKeyQ_qputInt, hasKeyQ_qputBoolN,
    hasKeyQ_qputList, hasKeyQ_qputObj, hasKeyQ_qput, hasKeyQ_nil]

theorem files_list_labels_query_keys (max_results : Option Int) (page_token : Option String) :
    hasKeyQ (files_list_labels_query max_results page_token) "maxResults" = truthyInt max_results
  ∧ hasKeyQ (files_list_labels_query max_results page_token) "pageToken" = truthyStr page_token := by
  simp [files_list_labels_query, hasKeyQ_cons, hasKeyQ_qputStr, hasKeyQ_qputInt, hasKeyQ_qputBoolN,
    hasKeyQ_qputList, hasKeyQ_qputObj, hasKeyQ_qput, hasKeyQ_nil]

theorem files_update_query_keys (add_parents remove_parents : Option String) (keep_revision_forever : Option Bool) (ocr_language : Option String) (supports_all_drives use_content_as_indexable_text : Option Bool) :
    hasKeyQ (files_update_query add_parents remove_parents keep_revision_forever ocr_language supports_all_drives use_content_as_indexable_text) "addParents" = truthyStr add_parents
  ∧ hasKeyQ (files_update_query add_parents remove_parents keep_revision_forever ocr_language supports_all_drives use_content_as_indexable_text) "removeParents" = truthyStr remove_parents
  ∧ hasKeyQ (files_update_query add_parents remove_parents keep_revision_forever ocr_language supports_all_drives use_content_as_indexable_text) "keepRevisionForever" = keep_revision_forever.isSome
  ∧ hasKeyQ (files_update_query add_parents remove_parents keep_revision_forever ocr_language supports_all_drives use_content_as_indexable_text) "ocrLanguage" = truthyStr ocr_language
  ∧ hasKeyQ (files_update_query add_parents remove_parents keep_revision_forever ocr_language supports_all_drives use_content_as_indexable_text) "supportsAllDrives" = supports_all_drives.isSome
  ∧ hasKeyQ (files_update_query add_parents remove_parents keep_revision_forever ocr_language supports_all_drives use_content_as_indexable_text) "useContentAsIndexableText" = use_content_as_indexable_text.isSome := by
  simp [files_update_query, hasKeyQ_cons, hasKeyQ_qputStr, hasKeyQ_qputInt, hasKeyQ_qputBoolN,
    hasKeyQ_qputList, hasKeyQ_qputObj, hasKeyQ_qput, hasKeyQ_nil]

theorem files_update_body_keys (name : Option String) :
    hasKeyQ (files_update_body name) "name" = truthyStr name := by
  simp [files_update_body, hasKeyQ_cons, hasKeyQ_qputStr, hasKeyQ_qputInt, hasKeyQ_qputBoolN,
    hasKeyQ_qputList, hasKeyQ_qputObj, hasKeyQ_qput, hasKeyQ_nil]

theorem files_watch_query_keys (supports_all_drives acknowledge_abuse : Option Bool) :
    hasKeyQ (files_watch_query supports_all_drives acknowledge_abuse) "supportsAllDrives" = supports_all_drives.isSome
  ∧ hasKeyQ (files_watch_query supports_all_drives acknowledge_abuse) "acknowledgeAbuse" = acknowledge_abuse.isSome := by
  simp [files_watch_query, hasKeyQ_cons, hasKeyQ_qputStr, hasKeyQ_qputInt, hasKeyQ_qputBoolN,
    hasKeyQ_qputList, hasKeyQ_qputObj, hasKeyQ_qput, hasKeyQ_nil]

theorem permissions_create_query_keys (email_message : Option String) (move_to_new_owners_root send_notification_email supports_all_drives transfer_ownership use_domain_admin_access : Option Bool) :
    hasKeyQ (permissions_create_query email_message move_to_new_owners_root send_notification_email supports_all_drives transfer_ownership use_domain_admin_access) "emailMessage" = truthyStr email_message
  ∧ hasKeyQ (permissions_create_query email_message move_to_new_owners_root send_notification_email supports_all_drives transfer_ownership use_domain_admin_access) "moveToNewOwnersRoot" = move_to_new_owners_root.isSome
  ∧ hasKeyQ (permissions_create_query email_message move_to_new_owners_root send_notification_email supports_all_drives transfer_ownership use_domain_admin_access) "sendNotificationEmail" = send_notification_email.isSome
  ∧ hasKeyQ (permissions_create_query email_message move_to_new_owners_root send_notification_email supports_all_drives transfer_ownership use_domain_admin_access) "supportsAllDrives" = supports_all_drives.isSome
  ∧ hasKeyQ (permissions_create_query email_message move_to_new_owners_root send_notification_email supports_all_drives transfer_ownership use_domain_admin_access) "transferOwnership" = transfer_ownership.isSome
  ∧ hasKeyQ (permissions_create_query email_message move_to_new_owners_root send_notification_email supports_all_drives transfer_ownership use_domain_admin_access) "useDomainAdminAccess" = use_domain_admin_access.isSome := by
  simp [permissions_create_query, hasKeyQ_cons, hasKeyQ_qputStr, hasKeyQ_qputInt, hasKeyQ_qputBoolN,
    hasKeyQ_qputList, hasKeyQ_qputObj, hasKeyQ_qput, hasKeyQ_nil]

theorem permissions_create_body_keys (role type : String) (email_address domain : Option String) :
    hasKeyQ (permissions_create_body role type email_address domain) "emailAddress" = truthyStr email_address
  ∧ hasKeyQ (permissions_create_body role type email_address domain) "domain" = truthyStr domain := by
  simp [permissions_create_body, hasKeyQ_cons, hasKeyQ_qputStr, hasKeyQ_qputInt, hasKeyQ_qputBoolN,
    hasKeyQ_qputList, hasKeyQ_qputObj, hasKeyQ_qput, hasKeyQ_nil]

theorem permissions_delete_query_keys (supports_all_drives use_domain_admin_access : Option Bool) :
    hasKeyQ (permissions_delete_query supports_all_drives use_domain_admin_access) "supportsAllDrives" = supports_all_drives.isSome
  ∧ hasKeyQ (permissions_delete_query supports_all_drives use_domain_admin_access) "useDomainAdminAccess" = use_domain_admin_access.isSome := by
  simp [permissions_delete_query, hasKeyQ_cons, hasKeyQ_qputStr, hasKeyQ_qputInt, hasKeyQ_qputBoolN,
    hasKeyQ_qputList, hasKeyQ_qputObj, hasKeyQ_qput, hasKeyQ_nil]

theorem permissions_get_query_keys (supports_all_drives use_domain_admin_access : Option Bool) :
    hasKeyQ (permissions_get_query supports_all_drives use_domain_admin_access) "supportsAllDrives" = supports_all_drives.isSome
  ∧ hasKeyQ (permissions_get_query supports_all_drives use_domain_admin_access) "useDomainAdminAccess" = use_domain_admin_access.isSome := by
  simp [permissions_get_query, hasKeyQ_cons, hasKeyQ_qputStr, hasKeyQ_qputInt, hasKeyQ_qputBoolN,
    hasKeyQ_qputList, hasKeyQ_qputObj, hasKeyQ_qput, hasKeyQ_nil]

theorem permissions_list_query_keys (page_size : Option Int) (page_token : Option String) (supports_all_drives use_domain_admin_access : Option Bool) :
    hasKeyQ (permissions_list_query page_size page_token supports_all_drives use_domain_admin_access) "pageSize" = truthyInt page_size
  ∧ hasKeyQ (permissions_list_query page_size page_token supports_all_drives use_domain_admin_access) "pageToken" = truthyStr page_token
  ∧ hasKeyQ (permissions_list_query page_size page_token supports_all_drives use_domain_admin_access) "supportsAllDrives" = supports_all_drives.isSome
  ∧ hasKeyQ (permissions_list_query page_size page_token supports_all_drives use_domain_admin_access) "useDomainAdminAccess" = use_domain_admin_access.isSome := by
  simp [permissions_list_query, hasKeyQ_cons, hasKeyQ_qputStr, hasKeyQ_qputInt, hasKeyQ_qputBoolN,
    hasKeyQ_qputList, hasKeyQ_qputObj, hasKeyQ_qput, hasKeyQ_nil]

theorem permissions_update_query_keys (remove_expiration supports_all_drives transfer_ownership use_domain_admin_access : Option Bool) :
    hasKeyQ (permissions_update_query remove_expiration supports_all_drives transfer_ownership use_domain_admin_access) "removeExpiration" = remove_expiration.isSome
  ∧ hasKeyQ (permissions_update_query remove_expiration supports_all_drives transfer_ownership use_domain_admin_access) "supportsAllDrives" = supports_all_drives.isSome
  ∧ hasKeyQ (permissions_update_query remove_expiration supports_all_drives transfer_ownership use_domain_admin_access) "transferOwnership" = transfer_ownership.isSome
  ∧ hasKeyQ (permissions_update_query remove_expiration supports_all_drives transfer_ownership use_domain_admin_access) "useDomainAdminAccess" = use_domain_admin_access.isSome := by
  simp [permissions_update_query, hasKeyQ_cons, hasKeyQ_qputStr, hasKeyQ_qputInt, hasKeyQ_qputBoolN,
    hasKeyQ_qputList, hasKeyQ_qputObj, hasKeyQ_qput, hasKeyQ_nil]

theorem permissions_update_body_keys (role : Option String) :
    hasKeyQ (permissions_update_body role) "role" = truthyStr role := by
  simp [permissions_update_body, hasKeyQ_cons, hasKeyQ_qputStr, hasKeyQ_qputInt, hasKeyQ_qputBoolN,
    hasKeyQ_qputList, hasKeyQ_qputObj, hasKeyQ_qput, hasKeyQ_nil]

theorem replies_get_query_keys (include_deleted : Option Bool) :
    hasKeyQ (replies_get_query include_deleted) "includeDeleted" = include_deleted.isSome := by
  simp [replies_get_query, hasKeyQ_cons, hasKeyQ_qputStr, hasKeyQ_qputInt, hasKeyQ_qputBoolN,
    hasKeyQ_qputList, hasKeyQ_qputObj, hasKeyQ_qput, hasKeyQ_nil]

theorem replies_list_query_keys (include_deleted : Option Bool) (page_size : Option Int) (page_token : Option String) :
    hasKeyQ (replies_list_query include_deleted page_size page_token) "includeDeleted" = include_deleted.isSome
  ∧ hasKeyQ (replies_list_query include_deleted page_size page_token) "pageSize" = truthyInt page_size
  ∧ hasKeyQ (replies_list_query include_deleted page_size page_token) "pageToken" = truthyStr page_token := by
  simp [replies_list_query, hasKeyQ_cons, hasKeyQ_qputStr, hasKeyQ_qputInt, hasKeyQ_qputBoolN,
    hasKeyQ_qputList, hasKeyQ_qputObj, hasKeyQ_qput, hasKeyQ_nil]

theorem revisions_get_query_keys (acknowledge_abuse : Option Bool) :
    hasKeyQ (revisions_get_query acknowledge_abuse) "acknowledgeAbuse" = acknowledge_abuse.isSome := by
  simp [revisions_get_query, hasKeyQ_cons, hasKeyQ_qputStr, hasKeyQ_qputInt, hasKeyQ_qputBoolN,
    hasKeyQ_qputList, hasKeyQ_qputObj, hasKeyQ_qput, hasKeyQ_nil]

theorem revisions_list_query_keys (page_size : Option Int) (page_token : Option String) :
    hasKeyQ (revisions_list_query page_size page_token) "pageSize" = truthyInt page_size
  ∧ hasKeyQ (revisions_list_query page_size page_token) "pageToken" = truthyStr page_token := by
  simp [revisions_list_query, hasKeyQ_cons, hasKeyQ_qputStr, hasKeyQ_qputInt, hasKeyQ_qputBoolN,
    hasKeyQ_qputList, hasKeyQ_qputObj, hasKeyQ_qput, hasKeyQ_nil]

theorem revisions_update_body_keys (keep_forever published published_outside_domain : Option Bool) :
    hasKeyQ (revisions_update_body keep_forever published published_outside_domain) "keepForever" = keep_forever.isSome
  ∧ hasKeyQ (revisions_update_body keep_forever published published_outside_domain) "published" = published.isSome
  ∧ hasKeyQ (revisions_update_body keep_forever published published_outside_domain) "publishedOutsideDomain" = published_outside_domain.isSome := by
  simp [revisions_update_body, hasKeyQ_cons, hasKeyQ_qputStr, hasKeyQ_qputInt, hasKeyQ_qputBoolN,
    hasKeyQ_qputList, hasKeyQ_qputObj, hasKeyQ_qput, hasKeyQ_nil]

/-! Typed response wrappers and the catalog functions the claims dispatch
through.  The reshaping of upstream JSON into the pydantic models is a
best-effort projection: each declared field is read from the payload when
it has the declared shape (pydantic validation failures on mistyped
payloads are outside the scope of the modelled claims, which only exercise
the failure branch and well-typed payloads). -/

/-- Best-effort dict lookup used by the reshaping layer. -/
def jget? (j : JValue) (k : String) : Option JValue :=
  match j with
  | .obj l => (l.find? (fun p => p.1 == k)).map Prod.snd
  | _ => none

/-- Reads a string field. -/
def asStr? : Option JValue → Option String
  | some (.str s) => some s
  | _ => none

/-- Reads a boolean field. -/
def asBool? : Option JValue → Option Bool
  | some (.bool b) => some b
  | _ => none

/-- Reads a list-of-strings field. -/
def asStrList? : Option JValue → Option (List String)
  | some (.arr l) => some (l.filterMap (fun v => match v with | .str s => some s | _ => none))
  | _ => none

/-- Reads the list stored under a key, as in data.get(key, []). -/
def jgetArr (j : JValue) (k : String) : List JValue :=
  match jget? j k with
  | some (.arr l) => l
  | _ => []

/-- The pydantic FileMetadata model. -/
structure FileMetadata where
  id : Option String
  name : Option String
  mimeType : Option String
  parents : Option (List String)
  createdTime : Option String
  modifiedTime : Option String
  size : Option String
  webViewLink : Option String
  webContentLink : Option String

/-- Projection of an upstream JSON item onto FileMetadata. -/
def FileMetadata.ofJson (j : JValue) : FileMetadata :=
  { id := asStr? (jget? j "id"), name := asStr? (jget? j "name")
    mimeType := asStr? (jget? j "mimeType"), parents := asStrList? (jget? j "parents")
    createdTime := asStr? (jget? j "createdTime"), modifiedTime := asStr? (jget? j "modifiedTime")
    size := asStr? (jget? j "size"), webViewLink := asStr? (jget? j "webViewLink")
    webContentLink := asStr? (jget? j "webContentLink") }

/-- The pydantic FileList model; FileList() defaults to an empty file
sequence and absent tokens. -/
structure FileList where
  files : List FileMetadata
  nextPageToken : Option String
  incompleteSearch : Option Bool

/-- The pydantic Permission model. -/
structure Permission where
  id : Option String
  type : Option String
  role : Option String
  emailAddress : Option String
  displayName : Option String

/-- Projection of an upstream JSON item onto Permission. -/
def Permission.ofJson (j : JValue) : Permission :=
  { id := asStr? (jget? j "id"), type := asStr? (jget? j "type")
    role := asStr? (jget? j "role"), emailAddress := asStr? (jget? j "emailAddress")
    displayName := asStr? (jget? j "displayName") }

/-- The pydantic PermissionList model. -/
structure PermissionList where
  permissions : List Permission
  nextPageToken : Option String

/-- The pydantic Comment model (author kept as raw JSON). -/
structure Comment where
  id : Option String
  content : Option String
  author : Option JValue
  createdTime : Option String
  modifiedTime : Option String

/-- Projection of an upstream JSON item onto Comment. -/
def Comment.ofJson (j : JValue) : Comment :=
  { id := asStr? (jget? j "id"), content := asStr? (jget? j "content")
    author := jget? j "author", createdTime := asStr? (jget? j "createdTime")
    modifiedTime := asStr? (jget? j "modifiedTime") }

/-- The pydantic CommentList model. -/
structure CommentList where
  comments : List Comment
  nextPageToken : Option String

/-- The pydantic Reply model (author kept as raw JSON). -/
structure Reply where
  id : Option String
  content : Option String
  author : Option JValue
  createdTime : Option String
  modifiedTime : Option String

/-- Projection of an upstream JSON item onto Reply. -/
def Reply.ofJson (j : JValue) : Reply :=
  { id := asStr? (jget? j "id"), content := asStr? (jget? j "content")
    author := jget? j "author", createdTime := asStr? (jget? j "createdTime")
    modifiedTime := asStr? (jget? j "modifiedTime") }

/-- The pydantic ReplyList model. -/
structure ReplyList where
  replies : List Reply
  nextPageToken : Option String

/-- The pydantic Drive model (capabilities kept as raw JSON). -/
structure Drive where
  id : Option String
  name : Option String
  createdTime : Option String
  capabilities : Option JValue

/-- Projection of an upstream JSON item onto Drive. -/
def Drive.ofJson (j : JValue) : Drive :=
  { id := asStr? (jget? j "id"), name := asStr? (jget? j "name")
    createdTime := asStr? (jget? j "createdTime"), capabilities := jget? j "capabilities" }

/-- The pydantic DriveList model. -/
structure DriveList where
  drives : List Drive
  nextPageToken : Option String

/-- The pydantic Revision model. -/
structure Revision where
  id : Option String
  mimeType : Option String
  modifiedTime : Option String
  size : Option String

/-- Projection of an upstream JSON item onto Revision. -/
def Revision.ofJson (j : JValue) : Revision :=
  { id := asStr? (jget? j "id"), mimeType := asStr? (jget? j "mimeType")
    modifiedTime := asStr? (jget? j "modifiedTime"), size := asStr? (jget? j "size") }

/-- The pydantic RevisionList model. -/
structure RevisionList where
  revisions : List Revision
  nextPageToken : Option String

/-- The pydantic AccessProposal model (requestingUser kept as raw JSON). -/
structure AccessProposal where
  id : Option String
  requestMessage : Option String
  requestingUser : Option JValue

/-- Projection of an upstream JSON item onto AccessProposal. -/
def AccessProposal.ofJson (j : JValue) : AccessProposal :=
  { id := asStr? (jget? j "id"), requestMessage := asStr? (jget? j "requestMessage")
    requestingUser := jget? j "requestingUser" }

/-- The pydantic AccessProposalList model. -/
structure AccessProposalList where
  accessProposals : List AccessProposal
  nextPageToken : Option String

/-- The pydantic App model. -/
structure App where
  id : Option String
  name : Option String
  productName : Option String
  authorized : Option Bool

/-- Projection of an upstream JSON item onto App. -/
def App.ofJson (j : JValue) : App :=
  { id := asStr? (jget? j "id"), name := asStr? (jget? j "name")
    productName := asStr? (jget? j "productName"), authorized := asBool? (jget? j "authorized") }

/-- The pydantic AppList model. -/
structure AppList where
  apps : List App

/-- The pydantic Change model. -/
structure Change where
  changeType : Option String
  file : Option FileMetadata
  fileId : Option String
  time : Option String

/-- Projection of an upstream JSON item onto Change. -/
def Change.ofJson (j : JValue) : Change :=
  { changeType := asStr? (jget? j "changeType")
    file := (jget? j "file").map FileMetadata.ofJson
    fileId := asStr? (jget? j "fileId"), time := asStr? (jget? j "time") }

/-- files_list: dispatches GET /drive/v3/files with the constructed query
and reshapes the payload, returning the empty FileList when the call
failed or carried no truthy payload. -/
def files_list (env : Env) (corpora drive_id : Option String)
    (include_items_from_all_drives : Option Bool) (order_by : Option String)
    (page_size : Option Int) (page_token q spaces : Option String)
    (supports_all_drives : Option Bool) (s : DState) : FileList × DState :=
  let params := files_list_query corpora drive_id include_items_from_all_drives
    order_by page_size page_token q spaces supports_all_drives
  let response := make_api_request env "GET" "/drive/v3/files" none (some params)
    none none true s
  if response.1.success && jTruthyOpt response.1.data then
    let d := response.1.data.getD .null
    ({ files := (jgetArr d "files").map FileMetadata.ofJson
       nextPageToken := asStr? (jget? d "nextPageToken")
       incompleteSearch := asBool? (jget? d "incompleteSearch") }, response.2)
  else ({ files := [], nextPageToken := none, incompleteSearch := none }, response.2)

/-- drives_list: dispatches GET /drive/v3/drives and reshapes, returning
the empty DriveList on failure. -/
def drives_list (env : Env) (page_size : Option Int) (page_token q : Option String)
    (use_domain_admin_access : Option Bool) (s : DState) : DriveList × DState :=
  let params := drives_list_query page_size page_token q use_domain_admin_access
  let response := make_api_request env "GET" "/drive/v3/drives" none (some params)
    none none true s
  if response.1.success && jTruthyOpt response.1.data then
    let d := response.1.data.getD .null
    ({ drives := (jgetArr d "drives").map Drive.ofJson
       nextPageToken := asStr? (jget? d "nextPageToken") }, response.2)
  else ({ drives := [], nextPageToken := none }, response.2)

/-- permissions_list: dispatches GET on the permissions collection of a
file and reshapes, returning the empty PermissionList on failure. -/
def permissions_list (env : Env) (file_id : String) (page_size : Option Int)
    (page_token : Option String)
    (supports_all_drives use_domain_admin_access : Option Bool) (s : DState) :
    PermissionList × DState :=
  let params := permissions_list_query page_size page_token supports_all_drives
    use_domain_admin_access
  let response := make_api_request env "GET"
    ("/drive/v3/files/" ++ file_id ++ "/permissions") none (some params) none none true s
  if response.1.success && jTruthyOpt response.1.data then
    let d := response.1.data.getD .null
    ({ permissions := (jgetArr d "permissions").map Permission.ofJson
       nextPageToken := asStr? (jget? d "nextPageToken") }, response.2)
  else ({ permissions := [], nextPageToken := none }, response.2)

/-- comments_list: dispatches GET on the comments collection of a file
and reshapes, returning the empty CommentList on failure. -/
def comments_list (env : Env) (file_id : String) (include_deleted : Option Bool)
    (page_size : Option Int) (page_token start_modified_time : Option String)
    (s : DState) : CommentList × DState :=
  let params := comments_list_query include_deleted page_size page_token start_modified_time
  let response := make_api_request env "GET"
    ("/drive/v3/files/" ++ file_id ++ "/comments") none (some params) none none true s
  if response.1.success && jTruthyOpt response.1.data then
    let d := response.1.data.getD .null
    ({ comments := (jgetArr d "comments").map Comment.ofJson
       nextPageToken := asStr? (jget? d "nextPageToken") }, response.2)
  else ({ comments := [], nextPageToken := none }, response.2)

/-- replies_list: dispatches GET on the replies collection of a comment
and reshapes, returning the empty ReplyList on failure. -/
def replies_list (env : Env) (file_id comment_id : String)
    (include_deleted : Option Bool) (page_size : Option Int)
    (page_token : Option String) (s : DState) : ReplyList × DState :=
  let params := replies_list_query include_deleted page_size page_token
  let response := make_api_request env "GET"
    ("/drive/v3/files/" ++ file_id ++ "/comments/" ++ comment_id ++ "/replies")
    none (some params) none none true s
  if response.1.success && jTruthyOpt response.1.data then
    let d := response.1.data.getD .null
    ({ replies := (jgetArr d "replies").map Reply.ofJson
       nextPageToken := asStr? (jget? d "nextPageToken") }, response.2)
  else ({ replies := [], nextPageToken := none }, response.2)

/-- revisions_list: dispatches GET on the revisions collection of a file
and reshapes, returning the empty RevisionList on failure. -/
def revisions_list (env : Env) (file_id : String) (page_size : Option Int)
    (page_token : Option String) (s : DState) : RevisionList × DState :=
  let params := revisions_list_query page_size page_token
  let response := make_api_request env "GET"
    ("/drive/v3/files/" ++ file_id ++ "/revisions") none (some params) none none true s
  if response.1.success && jTruthyOpt response.1.data then
    let d := response.1.data.getD .null
    ({ revisions := (jgetArr d "revisions").map Revision.ofJson
       nextPageToken := asStr? (jget? d "nextPageToken") }, response.2)
  else ({ revisions := [], nextPageToken := none }, response.2)

/-- accessproposals_list: dispatches GET on the access-proposals
collection of a file and reshapes, returning the empty
AccessProposalList on failure. -/
def accessproposals_list (env : Env) (file_id : String) (page_token : Option String)
    (page_size : Option Int) (s : DState) : AccessProposalList × DState :=
  let params := accessproposals_list_query page_token page_size
  let response := make_api_request env "GET"
    ("/drive/v3/files/" ++ file_id ++ "/accessproposals") none (some params) none none true s
  if response.1.success && jTruthyOpt response.1.data then
    let d := response.1.data.getD .null
    ({ accessProposals := (jgetArr d "accessProposals").map AccessProposal.ofJson
       nextPageToken := asStr? (jget? d "nextPageToken") }, response.2)
  else ({ accessProposals := [], nextPageToken := none }, response.2)

/-- apps_list: dispatches GET /drive/v3/apps and reshapes, returning the
empty AppList on failure. -/
def apps_list (env : Env)
    (app_filter_extensions app_filter_mime_types language_code : Option String)
    (s : DState) : AppList × DState :=
  let params := apps_list_query app_filter_extensions app_filter_mime_types language_code
  let response := make_api_request env "GET" "/drive/v3/apps" none (some params)
    none none true s
  if response.1.success && jTruthyOpt response.1.data then
    let d := response.1.data.getD .null
    ({ apps := (jgetArr d "apps").map App.ofJson }, response.2)
  else ({ apps := [] }, response.2)

/-- The pydantic ChangeList model. -/
structure ChangeList where
  changes : List Change
  nextPageToken : Option String
  newStartPageToken : Option String

/-- changes_list: dispatches GET /drive/v3/changes and reshapes, returning
the empty ChangeList on failure. -/
def changes_list (env : Env) (page_token : String) (drive_id : Option String)
    (include_corpus_removals include_items_from_all_drives include_removed : Option Bool)
    (page_size : Option Int) (restrict_to_my_drive : Option Bool)
    (spaces : Option String) (supports_all_drives : Option Bool) (s : DState) :
    ChangeList × DState :=
  let params := changes_list_query page_token drive_id include_corpus_removals
    include_items_from_all_drives include_removed page_size restrict_to_my_drive
    spaces supports_all_drives
  let response := make_api_request env "GET" "/drive/v3/changes" none (some params)
    none none true s
  if response.1.success && jTruthyOpt response.1.data then
    let d := response.1.data.getD .null
    ({ changes := (jgetArr d "changes").map Change.ofJson
       nextPageToken := asStr? (jget? d "nextPageToken")
       newStartPageToken := asStr? (jget? d "newStartPageToken") }, response.2)
  else ({ changes := [], nextPageToken := none, newStartPageToken := none }, response.2)

/-- permissions_create: builds the query and body mappings and dispatches
POST on the permissions collection of the file. -/
def permissions_create (env : Env) (file_id role type : String)
    (email_address domain email_message : Option String)
    (move_to_new_owners_root send_notification_email supports_all_drives
     transfer_ownership use_domain_admin_access : Option Bool) (s : DState) :
    APIResponse × DState :=
  let params := permissions_create_query email_message move_to_new_owners_root
    send_notification_email supports_all_drives transfer_ownership use_domain_admin_access
  let json_data := permissions_create_body role type email_address domain
  make_api_request env "POST" ("/drive/v3/files/" ++ file_id ++ "/permissions")
    none (some params) (some json_data) none true s

/-- changes_get_start_page_token: builds the query mapping and dispatches
GET /drive/v3/changes/startPageToken. -/
def changes_get_start_page_token (env : Env) (drive_id : Option String)
    (supports_all_drives : Option Bool) (s : DState) : APIResponse × DState :=
  let params := changes_get_start_page_token_query drive_id supports_all_drives
  make_api_request env "GET" "/drive/v3/changes/startPageToken" none (some params)
    none none true s

/-- The attribute names a Python APIResponse instance actually has; any
other attribute access raises AttributeError. -/
def apiResponseAttrs : List String := ["success", "status_code", "data", "error"]

/-- Python attribute access on an APIResponse value, as an Except: used to
model the stray trailing method call in the first files_watch definition. -/
def apiResponseGetAttr (r : APIResponse) (name : String) : Except String APIResponse :=
  if apiResponseAttrs.contains name then .ok r
  else .error ("AttributeError: APIResponse object has no attribute " ++ name)

/-- The first files_watch definition in the source: it builds the query
and body, dispatches POST on the watch action of the file, and then -
because the decorator line of the next definition was glued onto its
return statement - invokes .tool() on the returned APIResponse value,
which is not an attribute of the model and raises AttributeError. -/
def files_watch_v1 (env : Env) (file_id channel_id channel_type address : String)
    (supports_all_drives acknowledge_abuse : Option Bool) (s : DState) :
    Except String APIResponse × DState :=
  let params := files_watch_query supports_all_drives acknowledge_abuse
  let json_data := files_watch_body channel_id channel_type address
  let response := make_api_request env "POST"
    ("/drive/v3/files/" ++ file_id ++ "/watch") none (some params) (some json_data)
    none true s
  (apiResponseGetAttr response.1 "tool", response.2)

/-! Concrete environments and states used by the witnesses. -/

/-- A broker response holding a good access token. -/
def goodCreds : JValue := .obj [("credentials", .obj [("access_token", .str "tok1")])]

/-- Environment whose upstream always answers 200 with a JSON body. -/
def envOk : Env :=
  { provider := fun _ => .ok goodCreds
    upstream := fun _ => .response 200 "OK" (.json (.obj [("id", .str "abc123")])) }

/-- Environment whose upstream answers 401 first and 200 afterwards. -/
def env401Once : Env :=
  { provider := fun _ => .ok goodCreds
    upstream := fun n =>
      if n == 0 then .response 401 "Unauthorized" .empty
      else .response 200 "OK" (.json (.obj [("id", .str "abc123")])) }

/-- Environment whose upstream always answers 401. -/
def env401Twice : Env :=
  { provider := fun _ => .ok goodCreds
    upstream := fun _ => .response 401 "Unauthorized" .empty }

/-- Environment whose upstream always fails at the transport level. -/
def envTransport : Env :=
  { provider := fun _ => .ok goodCreds
    upstream := fun _ => .transportError "ConnectionError: name resolution failed" }

/-- Environment whose upstream always answers 500 with an empty body. -/
def env500 : Env :=
  { provider := fun _ => .ok goodCreds
    upstream := fun _ => .response 500 "Internal Server Error" .empty }

/-- Environment whose upstream answers 200 with a non-JSON body. -/
def envRaw200 : Env :=
  { provider := fun _ => .ok goodCreds
    upstream := fun _ => .response 200 "OK" (.raw "<html>ok</html>") }

/-- Fresh process state: empty cache, no broker calls, no requests. -/
def stateEmpty : DState := { cachedToken := none, providerCalls := 0, requestLog := [] }

/-- Process state whose cache already holds a token. -/
def stateCached : DState := { cachedToken := some (.str "tok0"), providerCalls := 0, requestLog := [] }

/-- Caller-supplied headers that already carry an Authorization key. -/
def authHeaders : Headers := [("Authorization", "Bearer caller")]

/-- C1: on every return path of make_api_request, a successful envelope
carries no error string and a failed envelope carries one. -/
theorem claim_C1_envelope_invariant (env : Env) (method endpoint : String)
    (headers : Option Headers) (params : Option QDict) (json_data : Option QDict)
    (data : Option String) (retry_auth : Bool) (s : DState) :
    let r := (make_api_request env method endpoint headers params json_data data retry_auth s).1
    (r.success = true → r.error = none) ∧ (r.success = false → ∃ msg, r.error = some msg) := by
  unfold make_api_request
  dsimp only
  split
  · exact dispatch_invariant _ _ _ _ _ _ _ _ _
  · split
    · simp
    · exact dispatch_invariant _ _ _ _ _ _ _ _ _

/-- Witness for C1 at concrete environments: a 200 outcome yields no
error, a 500 outcome yields an error string. -/
theorem claim_C1_envelope_invariant_witness :
    (make_api_request envOk "GET" "/drive/v3/about" none none none none true stateEmpty).1.error = none
  ∧ ∃ msg, (make_api_request env500 "GET" "/drive/v3/about" none none none none true stateEmpty).1.error = some msg := by
  constructor
  · exact (claim_C1_envelope_invariant envOk "GET" "/drive/v3/about" none none none none true stateEmpty).1 rfl
  · exact (claim_C1_envelope_invariant env500 "GET" "/drive/v3/about" none none none none true stateEmpty).2 rfl

/-- C2: a 401 first response with retry_auth enabled triggers exactly one
token refresh and exactly one reissue with the replaced Authorization
header, and the returned envelope reflects the second response; stated
for a caller-supplied Authorization header and for the cached-token
path. -/
theorem claim_C2_single_retry_on_401 :
    (∀ (env : Env) (s : DState) (method endpoint : String) (h0 : Headers)
       (params json_data : Option QDict) (data : Option String)
       (r1 : String) (b1 : BodyKind) (st2 : Nat) (r2 : String) (b2 : BodyKind) (tokv : String),
       hasKeyH h0 "Authorization" = true →
       env.upstream s.requestLog.length = .response 401 r1 b1 →
       env.provider s.providerCalls =
         .ok (.obj [("credentials", .obj [("access_token", .str tokv)])]) →
       (tokv == "") = false →
       env.upstream (s.requestLog.length + 1) = .response st2 r2 b2 →
       let out := make_api_request env method endpoint (some h0) params json_data data true s
       out.2.requestLog.length = s.requestLog.length + 2
       ∧ out.2.requestLog.drop (s.requestLog.length + 1) =
           [⟨method, BASE_URL ++ endpoint, hset h0 "Authorization" ("Bearer " ++ tokv),
             params, json_data, data, 30⟩]
       ∧ out.1 = finalizeResponse st2 r2 b2
       ∧ (st2 = 200 → out.1.success = true ∧ out.1.status_code = 200)
       ∧ (st2 = 401 → out.1.success = false ∧ out.1.status_code = 401)
       ∧ out.2.cachedToken = some (.str tokv)
       ∧ out.2.providerCalls = s.providerCalls + 1)
  ∧ (∀ (env : Env) (s : DState) (method endpoint : String)
       (params json_data : Option QDict) (data : Option String) (tok0 : String)
       (r1 : String) (b1 : BodyKind) (st2 : Nat) (r2 : String) (b2 : BodyKind) (tokv : String),
       s.cachedToken = some (.str tok0) →
       env.upstream s.requestLog.length = .response 401 r1 b1 →
       env.provider s.providerCalls =
         .ok (.obj [("credentials", .obj [("access_token", .str tokv)])]) →
       (tokv == "") = false →
       env.upstream (s.requestLog.length + 1) = .response st2 r2 b2 →
       let out := make_api_request env method endpoint none params json_data data true s
       out.2.requestLog.length = s.requestLog.length + 2
       ∧ out.2.requestLog.drop (s.requestLog.length + 1) =
           [⟨method, BASE_URL ++ endpoint, [("Authorization", "Bearer " ++ tokv)],
             params, json_data, data, 30⟩]
       ∧ out.1 = finalizeResponse st2 r2 b2
       ∧ (st2 = 200 → out.1.success = true ∧ out.1.status_code = 200)
       ∧ (st2 = 401 → out.1.success = false ∧ out.1.status_code = 401)
       ∧ out.2.cachedToken = some (.str tokv)
       ∧ out.2.providerCalls = s.providerCalls + 1) := by
  constructor
  · intro env s method endpoint h0 params json_data data r1 b1 st2 r2 b2 tokv
      hauth hup1 hprov htok hup2
    have hr := refresh_access_token_eq env
      (logRequest ⟨method, BASE_URL ++ endpoint, h0, params, json_data, data, 30⟩ s) tokv
      (by simpa [logRequest] using hprov) htok
    simp only [logRequest] at hr
    simp [make_api_request, dispatchWithHeaders, logRequest, hauth, hup1, hr, hup2,
      pyStr, finalizeResponse, respOk, List.drop_append_of_le_length]
    exact ⟨fun h => by omega, fun h => by omega⟩
  · intro env s method endpoint params json_data data tok0 r1 b1 st2 r2 b2 tokv
      hcache hup1 hprov htok hup2
    have hc := get_access_token_cached env s _ hcache
    have hr := refresh_access_token_eq env
      (logRequest ⟨method, BASE_URL ++ endpoint, [("Authorization", "Bearer " ++ tok0)],
        params, json_data, data, 30⟩ s) tokv
      (by simpa [logRequest] using hprov) htok
    simp only [logRequest] at hr
    simp [make_api_request, hc, dispatchWithHeaders, logRequest, hup1, hr, hup2,
      pyStr, hset, finalizeResponse, respOk, List.drop_append_of_le_length]
    exact ⟨fun h => by omega, fun h => by omega⟩

/-- Witness for C2: with an upstream answering 401 then 200, exactly two
requests are issued, the envelope is the success envelope of the second
response, and with an upstream answering 401 twice the envelope is the
401 failure. -/
theorem claim_C2_single_retry_on_401_witness :
    ((make_api_request env401Once "GET" "/drive/v3/files" (some authHeaders) none none none true stateEmpty).2.requestLog.length = 2
      ∧ (make_api_request env401Once "GET" "/drive/v3/files" (some authHeaders) none none none true stateEmpty).1.success = true
      ∧ (make_api_request env401Once "GET" "/drive/v3/files" (some authHeaders) none none none true stateEmpty).1.status_code = 200)
  ∧ ((make_api_request env401Twice "GET" "/drive/v3/files" none none none none true stateCached).2.requestLog.length = 2
      ∧ (make_api_request env401Twice "GET" "/drive/v3/files" none none none none true stateCached).1.success = false
      ∧ (make_api_request env401Twice "GET" "/drive/v3/files" none none none none true stateCached).1.status_code = 401) := by
  constructor
  · have h := claim_C2_single_retry_on_401.1 env401Once stateEmpty "GET" "/drive/v3/files"
      authHeaders none none none "Unauthorized" .empty 200 "OK"
      (.json (.obj [("id", .str "abc123")])) "tok1" rfl rfl rfl rfl rfl
    exact ⟨h.1, (h.2.2.2.1 rfl).1, (h.2.2.2.1 rfl).2⟩
  · have h := claim_C2_single_retry_on_401.2 env401Twice stateCached "GET" "/drive/v3/files"
      none none none "tok0" "Unauthorized" .empty 401 "Unauthorized" .empty "tok1"
      rfl rfl rfl rfl rfl
    exact ⟨h.1, (h.2.2.2.2.1 rfl).1, (h.2.2.2.2.1 rfl).2⟩

/-- C3: a transport-level failure of the issued request yields the
status-0 failure envelope with the transport message and no retry (the
request log grows by exactly the one request), and every request the
dispatcher ever issues carries the fixed timeout 30. -/
theorem claim_C3_transport_failure :
    (∀ (env : Env) (s : DState) (method endpoint : String) (h0 : Headers)
       (params json_data : Option QDict) (data : Option String) (retry_auth : Bool)
       (msg : String),
       hasKeyH h0 "Authorization" = true →
       env.upstream s.requestLog.length = .transportError msg →
       make_api_request env method endpoint (some h0) params json_data data retry_auth s =
         (⟨false, 0, none, some msg⟩,
          logRequest ⟨method, BASE_URL ++ endpoint, h0, params, json_data, data, 30⟩ s))
  ∧ (∀ (env : Env) (method endpoint : String) (headers : Option Headers)
       (params json_data : Option QDict) (data : Option String) (retry_auth : Bool)
       (s : DState),
       ∀ r ∈ (make_api_request env method endpoint headers params json_data data retry_auth s).2.requestLog,
         r ∈ s.requestLog ∨ r.timeout = 30) := by
  constructor
  · intro env s method endpoint h0 params json_data data retry_auth msg hauth hup
    simp [make_api_request, hauth, dispatchWithHeaders, hup, logRequest]
  · intro env method endpoint headers params json_data data retry_auth s
    exact make_api_request_timeout env method endpoint headers params json_data data retry_auth s

/-- Witness for C3: against the transport-failing environment the
dispatcher returns the status-0 envelope after logging exactly one
request. -/
theorem claim_C3_transport_failure_witness :
    make_api_request envTransport "GET" "/drive/v3/files" (some authHeaders) none none none true stateEmpty =
      (⟨false, 0, none, some "ConnectionError: name resolution failed"⟩,
       logRequest ⟨"GET", BASE_URL ++ "/drive/v3/files", authHeaders, none, none, none, 30⟩ stateEmpty) :=
  claim_C3_transport_failure.1 envTransport stateEmpty "GET" "/drive/v3/files"
    authHeaders none none none true "ConnectionError: name resolution failed" rfl rfl

/-- C8: a non-empty body that fails to parse as JSON is wrapped under the
fallback key content instead of failing the call (stated for the
finalization of any response and for the dispatcher on a 200 response),
and an empty body gives data None. -/
theorem claim_C8_malformed_body :
    (∀ (st : Nat) (reason text : String),
       (finalizeResponse st reason (.raw text)).data = some (.obj [("content", .str text)])
       ∧ (finalizeResponse st reason (.raw text)).success = respOk st)
  ∧ (∀ (st : Nat) (reason : String), (finalizeResponse st reason .empty).data = none)
  ∧ (∀ (env : Env) (s : DState) (method endpoint : String) (h0 : Headers)
       (params json_data : Option QDict) (data : Option String) (retry_auth : Bool)
       (reason text : String),
       hasKeyH h0 "Authorization" = true →
       env.upstream s.requestLog.length = .response 200 reason (.raw text) →
       (make_api_request env method endpoint (some h0) params json_data data retry_auth s).1 =
         ⟨true, 200, some (.obj [("content", .str text)]), none⟩)
  ∧ (∀ (env : Env) (s : DState) (method endpoint : String) (h0 : Headers)
       (params json_data : Option QDict) (data : Option String) (retry_auth : Bool)
       (st : Nat) (reason : String),
       hasKeyH h0 "Authorization" = true →
       st ≠ 401 →
       env.upstream s.requestLog.length = .response st reason .empty →
       (make_api_request env method endpoint (some h0) params json_data data retry_auth s).1.data = none) := by
  refine ⟨?_, ?_, ?_, ?_⟩
  · intro st reason text
    simp [finalizeResponse, parseBody]
  · intro st reason
    simp [finalizeResponse, parseBody]
  · intro env s method endpoint h0 params json_data data retry_auth reason text hauth hup
    simp [make_api_request, hauth, dispatchWithHeaders, hup, finalizeResponse, respOk, parseBody]
  · intro env s method endpoint h0 params json_data data retry_auth st reason hauth hst hup
    have hb : (st == 401) = false := beq_eq_false_iff_ne.mpr hst
    simp [make_api_request, hauth, dispatchWithHeaders, hup, hb, finalizeResponse, parseBody]

/-- Witness for C8: a 200 response with a non-JSON body yields a success
envelope with the raw text under the content key. -/
theorem claim_C8_malformed_body_witness :
    (make_api_request envRaw200 "GET" "/drive/v3/files" (some authHeaders) none none none true stateEmpty).1 =
      ⟨true, 200, some (.obj [("content", .str "<html>ok</html>")]), none⟩ :=
  claim_C8_malformed_body.2.2.1 envRaw200 stateEmpty "GET" "/drive/v3/files"
    authHeaders none none none true "OK" "<html>ok</html>" rfl rfl

/-- C10: when the caller supplies an Authorization header and the
response status is not 401, the broker is never consulted and the token
cache is untouched. -/
theorem claim_C10_frame (env : Env) (s : DState) (method endpoint : String)
    (h0 : Headers) (params json_data : Option QDict) (data : Option String)
    (retry_auth : Bool) (st : Nat) (reason : String) (body : BodyKind)
    (hauth : hasKeyH h0 "Authorization" = true)
    (hup : env.upstream s.requestLog.length = .response st reason body)
    (hst : st ≠ 401) :
    (make_api_request env method endpoint (some h0) params json_data data retry_auth s).2.cachedToken = s.cachedToken
    ∧ (make_api_request env method endpoint (some h0) params json_data data retry_auth s).2.providerCalls = s.providerCalls := by
  have hb : (st == 401) = false := beq_eq_false_iff_ne.mpr hst
  simp [make_api_request, hauth, dispatchWithHeaders, hup, hb, logRequest]

/-- Witness for C10: a 200 response through caller-supplied headers
leaves the empty cache empty and the broker-call counter at zero. -/
theorem claim_C10_frame_witness :
    (make_api_request envOk "GET" "/drive/v3/files" (some authHeaders) none none none true stateEmpty).2.cachedToken = none
    ∧ (make_api_request envOk "GET" "/drive/v3/files" (some authHeaders) none none none true stateEmpty).2.providerCalls = 0 :=
  claim_C10_frame envOk stateEmpty "GET" "/drive/v3/files" authHeaders none none none
    true 200 "OK" (.json (.obj [("id", .str "abc123")])) rfl rfl (by decide)

/-- C4: get_access_token returns the cached token unchanged with no broker
call when the cache is occupied; on a miss it makes one broker call,
extracts credentials.access_token, caches it and returns it; hence two
sequential dispatcher calls with no intervening 401 make exactly one
broker call. -/
theorem claim_C4_token_cache :
    (∀ (env : Env) (s : DState) (tok : JValue),
       s.cachedToken = some tok →
       get_access_token env s = (.ok tok, s))
  ∧ (∀ (env : Env) (s : DState) (t : String),
       s.cachedToken = none →
       env.provider s.providerCalls =
         .ok (.obj [("credentials", .obj [("access_token", .str t)])]) →
       (t == "") = false →
       get_access_token env s =
         (.ok (.str t),
          { cachedToken := some (.str t), providerCalls := s.providerCalls + 1,
            requestLog := s.requestLog }))
  ∧ (∀ (env : Env) (s : DState) (t : String) (m1 e1 m2 e2 : String)
       (p1 j1 p2 j2 : Option QDict) (d1 d2 : Option String)
       (st1 st2 : Nat) (r1 r2 : String) (b1 b2 : BodyKind),
       s.cachedToken = none →
       env.provider s.providerCalls =
         .ok (.obj [("credentials", .obj [("access_token", .str t)])]) →
       (t == "") = false →
       env.upstream s.requestLog.length = .response st1 r1 b1 →
       st1 ≠ 401 →
       env.upstream (s.requestLog.length + 1) = .response st2 r2 b2 →
       st2 ≠ 401 →
       (make_api_request env m2 e2 none p2 j2 d2 true
          (make_api_request env m1 e1 none p1 j1 d1 true s).2).2.providerCalls
         = s.providerCalls + 1) := by
  refine ⟨?_, ?_, ?_⟩
  · intro env s tok hc
    exact get_access_token_cached env s tok hc
  · intro env s t hc hp ht
    exact get_access_token_miss env s t hc hp ht
  · intro env s t m1 e1 m2 e2 p1 j1 p2 j2 d1 d2 st1 st2 r1 r2 b1 b2
      hc hp ht hup1 h1ne hup2 h2ne
    have hm := get_access_token_miss env s t hc hp ht
    have hb1 : (st1 == 401) = false := beq_eq_false_iff_ne.mpr h1ne
    have hb2 : (st2 == 401) = false := beq_eq_false_iff_ne.mpr h2ne
    have h1 : make_api_request env m1 e1 none p1 j1 d1 true s =
        (finalizeResponse st1 r1 b1,
         { cachedToken := some (.str t), providerCalls := s.providerCalls + 1,
           requestLog := s.requestLog ++
             [⟨m1, BASE_URL ++ e1, [("Authorization", "Bearer " ++ t)], p1, j1, d1, 30⟩] }) := by
      simp [make_api_request, hm, dispatchWithHeaders, logRequest, hup1, hb1, hset, pyStr]
    rw [h1]
    have h2 := get_access_token_cached env
      { cachedToken := some (.str t), providerCalls := s.providerCalls + 1,
        requestLog := s.requestLog ++
          [⟨m1, BASE_URL ++ e1, [("Authorization", "Bearer " ++ t)], p1, j1, d1, 30⟩] }
      (.str t) rfl
    simp [make_api_request, h2, dispatchWithHeaders, logRequest, hup2, hb2, hset, pyStr]

/-- Witness for C4: a cache hit returns the cached token unchanged, and
two fresh-cache dispatcher calls against a 200-answering upstream leave
the broker-call counter at one. -/
theorem claim_C4_token_cache_witness :
    get_access_token envOk stateCached = (.ok (.str "tok0"), stateCached)
  ∧ (make_api_request envOk "GET" "/drive/v3/drives" none none none none true
       (make_api_request envOk "GET" "/drive/v3/files" none none none none true stateEmpty).2).2.providerCalls = 1 := by
  constructor
  · exact claim_C4_token_cache.1 envOk stateCached (.str "tok0") rfl
  · exact claim_C4_token_cache.2.2 envOk stateEmpty "tok1" "GET" "/drive/v3/files"
      "GET" "/drive/v3/drives" none none none none none none 200 200 "OK" "OK"
      (.json (.obj [("id", .str "abc123")])) (.json (.obj [("id", .str "abc123")]))
      rfl rfl rfl rfl (by decide) rfl (by decide)

/-- C9 (code defect witness): the first files_watch definition calls
.tool() on the returned APIResponse (the glued decorator of the next
definition), so even when the dispatch completes with a 200 success the
tool raises AttributeError instead of returning the envelope. -/
theorem claim_C9_files_watch_v1_attribute_error :
    (files_watch_v1 envOk "f1" "ch1" "web_hook" "https://example.com/cb" none none stateEmpty).1 =
      .error "AttributeError: APIResponse object has no attribute tool"
  ∧ (make_api_request envOk "POST" ("/drive/v3/files/" ++ "f1" ++ "/watch") none
       (some (files_watch_query none none))
       (some (files_watch_body "ch1" "web_hook" "https://example.com/cb"))
       none true stateEmpty).1.success = true := by
  exact ⟨rfl, rfl⟩

/-- C7: every list-returning catalog function returns the empty typed
wrapper (empty item sequence, absent continuation tokens) whenever the
dispatcher envelope reports failure or carries no data payload. -/
theorem claim_C7_list_wrapper_default :
    (∀ (env : Env) (corpora drive_id : Option String)
       (include_items_from_all_drives : Option Bool) (order_by : Option String)
       (page_size : Option Int) (page_token q spaces : Option String)
       (supports_all_drives : Option Bool) (s : DState),
       ((make_api_request env "GET" "/drive/v3/files" none
           (some (files_list_query corpora drive_id include_items_from_all_drives
             order_by page_size page_token q spaces supports_all_drives))
           none none true s).1.success = false
        ∨ (make_api_request env "GET" "/drive/v3/files" none
             (some (files_list_query corpora drive_id include_items_from_all_drives
               order_by page_size page_token q spaces supports_all_drives))
             none none true s).1.data = none) →
       files_list env corpora drive_id include_items_from_all_drives order_by
         page_size page_token q spaces supports_all_drives s =
       ({ files := [], nextPageToken := none, incompleteSearch := none },
        (make_api_request env "GET" "/drive/v3/files" none
          (some (files_list_query corpora drive_id include_items_from_all_drives
            order_by page_size page_token q spaces supports_all_drives))
          none none true s).2))
  ∧ (∀ (env : Env) (page_size : Option Int) (page_token q : Option String)
       (use_domain_admin_access : Option Bool) (s : DState),
       ((make_api_request env "GET" "/drive/v3/drives" none
           (some (drives_list_query page_size page_token q use_domain_admin_access))
           none none true s).1.success = false
        ∨ (make_api_request env "GET" "/drive/v3/drives" none
             (some (drives_list_query page_size page_token q use_domain_admin_access))
             none none true s).1.data = none) →
       drives_list env page_size page_token q use_domain_admin_access s =
       ({ drives := [], nextPageToken := none },
        (make_api_request env "GET" "/drive/v3/drives" none
          (some (drives_list_query page_size page_token q use_domain_admin_access))
          none none true s).2))
  ∧ (∀ (env : Env) (file_id : String) (page_size : Option Int)
       (page_token : Option String)
       (supports_all_drives use_domain_admin_access : Option Bool) (s : DState),
       ((make_api_request env "GET" ("/drive/v3/files/" ++ file_id ++ "/permissions") none
           (some (permissions_list_query page_size page_token supports_all_drives
             use_domain_admin_access))
           none none true s).1.success = false
        ∨ (make_api_request env "GET" ("/drive/v3/files/" ++ file_id ++ "/permissions") none
             (some (permissions_list_query page_size page_token supports_all_drives
               use_domain_admin_access))
             none none true s).1.data = none) →
       permissions_list env file_id page_size page_token supports_all_drives
         use_domain_admin_access s =
       ({ permissions := [], nextPageToken := none },
        (make_api_request env "GET" ("/drive/v3/files/" ++ file_id ++ "/permissions") none
          (some (permissions_list_query page_size page_token supports_all_drives
            use_domain_admin_access))
          none none true s).2))
  ∧ (∀ (env : Env) (file_id : String) (include_deleted : Option Bool)
       (page_size : Option Int) (page_token start_modified_time : Option String)
       (s : DState),
       ((make_api_request env "GET" ("/drive/v3/files/" ++ file_id ++ "/comments") none
           (some (comments_list_query include_deleted page_size page_token
             start_modified_time))
           none none true s).1.success = false
        ∨ (make_api_request env "GET" ("/drive/v3/files/" ++ file_id ++ "/comments") none
             (some (comments_list_query include_deleted page_size page_token
               start_modified_time))
             none none true s).1.data = none) →
       comments_list env file_id include_deleted page_size page_token
         start_modified_time s =
       ({ comments := [], nextPageToken := none },
        (make_api_request env "GET" ("/drive/v3/files/" ++ file_id ++ "/comments") none
          (some (comments_list_query include_deleted page_size page_token
            start_modified_time))
          none none true s).2))
  ∧ (∀ (env : Env) (file_id comment_id : String) (include_deleted : Option Bool)
       (page_size : Option Int) (page_token : Option String) (s : DState),
       ((make_api_request env "GET"
           ("/drive/v3/files/" ++ file_id ++ "/comments/" ++ comment_id ++ "/replies") none
           (some (replies_list_query include_deleted page_size page_token))
           none none true s).1.success = false
        ∨ (make_api_request env "GET"
             ("/drive/v3/files/" ++ file_id ++ "/comments/" ++ comment_id ++ "/replies") none
             (some (replies_list_query include_deleted page_size page_token))
             none none true s).1.data = none) →
       replies_list env file_id comment_id include_deleted page_size page_token s =
       ({ replies := [], nextPageToken := none },
        (make_api_request env "GET"
          ("/drive/v3/files/" ++ file_id ++ "/comments/" ++ comment_id ++ "/replies") none
          (some (replies_list_query include_deleted page_size page_token))
          none none true s).2))
  ∧ (∀ (env : Env) (file_id : String) (page_size : Option Int)
       (page_token : Option String) (s : DState),
       ((make_api_request env "GET" ("/drive/v3/files/" ++ file_id ++ "/revisions") none
           (some (revisions_list_query page_size page_token))
           none none true s).1.success = false
        ∨ (make_api_request env "GET" ("/drive/v3/files/" ++ file_id ++ "/revisions") none
             (some (revisions_list_query page_size page_token))
             none none true s).1.data = none) →
       revisions_list env file_id page_size page_token s =
       ({ revisions := [], nextPageToken := none },
        (make_api_request env "GET" ("/drive/v3/files/" ++ file_id ++ "/revisions") none
          (some (revisions_list_query page_size page_token))
          none none true s).2))
  ∧ (∀ (env : Env) (file_id : String) (page_token : Option String)
       (page_size : Option Int) (s : DState),
       ((make_api_request env "GET" ("/drive/v3/files/" ++ file_id ++ "/accessproposals") none
           (some (accessproposals_list_query page_token page_size))
           none none true s).1.success = false
        ∨ (make_api_request env "GET" ("/drive/v3/files/" ++ file_id ++ "/accessproposals") none
             (some (accessproposals_list_query page_token page_size))
             none none true s).1.data = none) →
       accessproposals_list env file_id page_token page_size s =
       ({ accessProposals := [], nextPageToken := none },
        (make_api_request env "GET" ("/drive/v3/files/" ++ file_id ++ "/accessproposals") none
          (some (accessproposals_list_query page_token page_size))
          none none true s).2))
  ∧ (∀ (env : Env)
       (app_filter_extensions app_filter_mime_types language_code : Option String)
       (s : DState),
       ((make_api_request env "GET" "/drive/v3/apps" none
           (some (apps_list_query app_filter_extensions app_filter_mime_types language_code))
           none none true s).1.success = false
        ∨ (make_api_request env "GET" "/drive/v3/apps" none
             (some (apps_list_query app_filter_extensions app_filter_mime_types language_code))
             none none true s).1.data = none) →
       apps_list env app_filter_extensions app_filter_mime_types language_code s =
       ({ apps := [] },
        (make_api_request env "GET" "/drive/v3/apps" none
          (some (apps_list_query app_filter_extensions app_filter_mime_types language_code))
          none none true s).2))
  ∧ (∀ (env : Env) (page_token : String) (drive_id : Option String)
       (include_corpus_removals include_items_from_all_drives include_removed : Option Bool)
       (page_size : Option Int) (restrict_to_my_drive : Option Bool)
       (spaces : Option String) (supports_all_drives : Option Bool) (s : DState),
       ((make_api_request env "GET" "/drive/v3/changes" none
           (some (changes_list_query page_token drive_id include_corpus_removals
             include_items_from_all_drives include_removed page_size restrict_to_my_drive
             spaces supports_all_drives))
           none none true s).1.success = false
        ∨ (make_api_request env "GET" "/drive/v3/changes" none
             (some (changes_list_query page_token drive_id include_corpus_removals
               include_items_from_all_drives include_removed page_size restrict_to_my_drive
               spaces supports_all_drives))
             none none true s).1.data = none) →
       changes_list env page_token drive_id include_corpus_removals
         include_items_from_all_drives include_removed page_size restrict_to_my_drive
         spaces supports_all_drives s =
       ({ changes := [], nextPageToken := none, newStartPageToken := none },
        (make_api_request env "GET" "/drive/v3/changes" none
          (some (changes_list_query page_token drive_id include_corpus_removals
            include_items_from_all_drives include_removed page_size restrict_to_my_drive
            spaces supports_all_drives))
          none none true s).2)) := by
  refine ⟨?_, ?_, ?_, ?_, ?_, ?_, ?_, ?_, ?_⟩ <;>
    · intros
      rename_i h
      rcases h with h | h <;> simp [files_list, drives_list, permissions_list,
        comments_list, replies_list, revisions_list, accessproposals_list,
        apps_list, changes_list, h, jTruthyOpt]

/-- Witness for C7: against the 500-answering upstream every list
function yields its empty wrapper. -/
theorem claim_C7_list_wrapper_default_witness :
    (files_list env500 none none none none none none none none none stateCached).1 =
      { files := [], nextPageToken := none, incompleteSearch := none }
  ∧ (drives_list env500 none none none none stateCached).1 = { drives := [], nextPageToken := none }
  ∧ (permissions_list env500 "f1" none none none none stateCached).1 =
      { permissions := [], nextPageToken := none }
  ∧ (comments_list env500 "f1" none none none none stateCached).1 =
      { comments := [], nextPageToken := none }
  ∧ (replies_list env500 "f1" "c1" none none none stateCached).1 =
      { replies := [], nextPageToken := none }
  ∧ (revisions_list env500 "f1" none none stateCached).1 =
      { revisions := [], nextPageToken := none }
  ∧ (accessproposals_list env500 "f1" none none stateCached).1 =
      { accessProposals := [], nextPageToken := none }
  ∧ (apps_list env500 none none none stateCached).1 = { apps := [] }
  ∧ (changes_list env500 "pt" none none none none none none none none stateCached).1 =
      { changes := [], nextPageToken := none, newStartPageToken := none } := by
  refine ⟨?_, ?_, ?_, ?_, ?_, ?_, ?_, ?_, ?_⟩
  · exact congrArg Prod.fst
      (claim_C7_list_wrapper_default.1 env500 none none none none none none none none none
        stateCached (Or.inl rfl))
  · exact congrArg Prod.fst
      (claim_C7_list_wrapper_default.2.1 env500 none none none none stateCached (Or.inl rfl))
  · exact congrArg Prod.fst
      (claim_C7_list_wrapper_default.2.2.1 env500 "f1" none none none none stateCached (Or.inl rfl))
  · exact congrArg Prod.fst
      (claim_C7_list_wrapper_default.2.2.2.1 env500 "f1" none none none none stateCached (Or.inl rfl))
  · exact congrArg Prod.fst
      (claim_C7_list_wrapper_default.2.2.2.2.1 env500 "f1" "c1" none none none stateCached (Or.inl rfl))
  · exact congrArg Prod.fst
      (claim_C7_list_wrapper_default.2.2.2.2.2.1 env500 "f1" none none stateCached (Or.inl rfl))
  · exact congrArg Prod.fst
      (claim_C7_list_wrapper_default.2.2.2.2.2.2.1 env500 "f1" none none stateCached (Or.inl rfl))
  · exact congrArg Prod.fst
      (claim_C7_list_wrapper_default.2.2.2.2.2.2.2.1 env500 none none none stateCached (Or.inl rfl))
  · exact congrArg Prod.fst
      (claim_C7_list_wrapper_default.2.2.2.2.2.2.2.2 env500 "pt" none none none none none none
        none none stateCached (Or.inl rfl))

/-- C6: permissions_create with role reader, type user, email a@b.com and
every other optional parameter unset builds exactly the three-field JSON
body in declaration order, an empty query mapping, and dispatches one
POST to the permissions collection of the file. -/
theorem claim_C6_permissions_create_scenario :
    (permissions_create_query none none none none none none = [])
  ∧ (permissions_create_body "reader" "user" (some "a@b.com") none =
      [("role", .str "reader"), ("type", .str "user"), ("emailAddress", .str "a@b.com")])
  ∧ (∀ (env : Env) (s : DState) (file_id : String) (tok : JValue),
       s.cachedToken = some tok →
       ((permissions_create env file_id "reader" "user" (some "a@b.com")
           none none none none none none none s).2.requestLog.drop
         s.requestLog.length).head? =
       some ⟨"POST", BASE_URL ++ ("/drive/v3/files/" ++ file_id ++ "/permissions"),
         [("Authorization", "Bearer " ++ pyStr tok)], some [],
         some [("role", .str "reader"), ("type", .str "user"),
               ("emailAddress", .str "a@b.com")], none, 30⟩) := by
  refine ⟨rfl, rfl, ?_⟩
  intro env s file_id tok hc
  have hq : permissions_create_query none none none none none none = ([] : QDict) := rfl
  have hb : permissions_create_body "reader" "user" (some "a@b.com") none =
      [("role", .str "reader"), ("type", .str "user"), ("emailAddress", .str "a@b.com")] := rfl
  have ht := get_access_token_cached env s tok hc
  have hd := dispatch_first_logged env "POST"
    (BASE_URL ++ ("/drive/v3/files/" ++ file_id ++ "/permissions"))
    [("Authorization", "Bearer " ++ pyStr tok)]
    (some [])
    (some [("role", .str "reader"), ("type", .str "user"), ("emailAddress", .str "a@b.com")])
    none true s
  simp only [permissions_create, hq, hb, make_api_request, Option.map_none,
    Option.getD_none, Bool.false_eq_true, if_false, ht, Option.getD_none, hset]
  exact hd

/-- Witness for C6: the scenario dispatched against the always-200
environment from the cached-token state logs exactly the expected POST. -/
theorem claim_C6_permissions_create_scenario_witness :
    ((permissions_create envOk "f1" "reader" "user" (some "a@b.com")
        none none none none none none none stateCached).2.requestLog.drop 0).head? =
    some ⟨"POST", BASE_URL ++ ("/drive/v3/files/" ++ "f1" ++ "/permissions"),
      [("Authorization", "Bearer " ++ pyStr (.str "tok0"))], some [],
      some [("role", .str "reader"), ("type", .str "user"),
            ("emailAddress", .str "a@b.com")], none, 30⟩ :=
  claim_C6_permissions_create_scenario.2.2 envOk stateCached "f1" (.str "tok0") rfl

/-- Counterexample for C5 as frozen: files_list called with the
non-null page_size 0, and changes_get_start_page_token called with the
non-null empty drive_id, omit the corresponding keys from the query
although the caller supplied non-null values. -/
theorem claim_C5_counterexample :
    (some (0 : Int)).isSome = true
  ∧ hasKeyQ (files_list_query none none none none (some 0) none none none none) "pageSize" = false
  ∧ (some "").isSome = true
  ∧ hasKeyQ (changes_get_start_page_token_query (some "") none) "driveId" = false := by
  exact ⟨rfl, rfl, rfl, rfl⟩

/-- C5 as amended: for every catalog function, an optional parameter
key appears in the constructed query/body mapping exactly when the
supplied value passes the guard the source uses for it - Python
truthiness (non-null and non-empty string, non-zero integer, non-empty
list or mapping) for truthiness-tested parameters, and mere non-null
for is-not-None-tested (boolean) parameters; a parameter left unset
never appears at all. -/
theorem claim_C5_optional_parameter_keys :
    (∀ (fields : Option String),
       hasKeyQ (about_get_query fields) "fields" = truthyStr fields)
  ∧ (∀ (page_token : Option String) (page_size : Option Int),
       hasKeyQ (accessproposals_list_query page_token page_size) "pageToken" = truthyStr page_token
       ∧ hasKeyQ (accessproposals_list_query page_token page_size) "pageSize" = truthyInt page_size)
  ∧ (∀ (action : String) (send_notification : Option Bool),
       hasKeyQ (accessproposals_resolve_body action send_notification) "sendNotification" = send_notification.isSome)
  ∧ (∀ (app_filter_extensions app_filter_mime_types language_code : Option String),
       hasKeyQ (apps_list_query app_filter_extensions app_filter_mime_types language_code) "appFilterExtensions" = truthyStr app_filter_extensions
       ∧ hasKeyQ (apps_list_query app_filter_extensions app_filter_mime_types language_code) "appFilterMimeTypes" = truthyStr app_filter_mime_types
       ∧ hasKeyQ (apps_list_query app_filter_extensions app_filter_mime_types language_code) "languageCode" = truthyStr language_code)
  ∧ (∀ (drive_id : Option String) (supports_all_drives : Option Bool),
       hasKeyQ (changes_get_start_page_token_query drive_id supports_all_drives) "driveId" = truthyStr drive_id
       ∧ hasKeyQ (changes_get_start_page_token_query drive_id supports_all_drives) "supportsAllDrives" = supports_all_drives.isSome)
  ∧ (∀ (page_token : String) (drive_id : Option String) (include_corpus_removals include_items_from_all_drives include_removed : Option Bool) (page_size : Option Int) (restrict_to_my_drive : Option Bool) (spaces : Option String) (supports_all_drives : Option Bool),
       hasKeyQ (changes_list_query page_token drive_id include_corpus_removals include_items_from_all_drives include_removed page_size restrict_to_my_drive spaces supports_all_drives) "driveId" = truthyStr drive_id
       ∧ hasKeyQ (changes_list_query page_token drive_id include_corpus_removals include_items_from_all_drives include_removed page_size restrict_to_my_drive spaces supports_all_drives) "includeCorpusRemovals" = include_corpus_removals.isSome
       ∧ hasKeyQ (changes_list_query page_token drive_id include_corpus_removals include_items_from_all_drives include_removed page_size restrict_to_my_drive spaces supports_all_drives) "includeItemsFromAllDrives" = include_items_from_all_drives.isSome
       ∧ hasKeyQ (changes_list_query page_token drive_id include_corpus_removals include_items_from_all_drives include_removed page_size restrict_to_my_drive spaces supports_all_drives) "includeRemoved" = include_removed.isSome
       ∧ hasKeyQ (changes_list_query page_token drive_id include_corpus_removals include_items_from_all_drives include_removed page_size restrict_to_my_drive spaces supports_all_drives) "pageSize" = truthyInt page_size
       ∧ hasKeyQ (changes_list_query page_token drive_id include_corpus_removals include_items_from_all_drives include_removed page_size restrict_to_my_drive spaces supports_all_drives) "restrictToMyDrive" = restrict_to_my_drive.isSome
       ∧ hasKeyQ (changes_list_query page_token drive_id include_corpus_removals include_items_from_all_drives include_removed page_size restrict_to_my_drive spaces supports_all_drives) "spaces" = truthyStr spaces
       ∧ hasKeyQ (changes_list_query page_token drive_id include_corpus_removals include_items_from_all_drives include_removed page_size restrict_to_my_drive spaces supports_all_drives) "supportsAllDrives" = supports_all_drives.isSome)
  ∧ (∀ (page_token : String) (drive_id : Option String) (include_corpus_removals include_items_from_all_drives include_removed : Option Bool) (page_size : Option Int) (restrict_to_my_drive : Option Bool) (spaces : Option String) (supports_all_drives : Option Bool),
       hasKeyQ (changes_watch_query page_token drive_id include_corpus_removals include_items_from_all_drives include_removed page_size restrict_to_my_drive spaces supports_all_drives) "driveId" = truthyStr drive_id
       ∧ hasKeyQ (changes_watch_query page_token drive_id include_corpus_removals include_items_from_all_drives include_removed page_size restrict_to_my_drive spaces supports_all_drives) "includeCorpusRemovals" = include_corpus_removals.isSome
       ∧ hasKeyQ (changes_watch_query page_token drive_id include_corpus_removals include_items_from_all_drives include_removed page_size restrict_to_my_drive spaces supports_all_drives) "includeItemsFromAllDrives" = include_items_from_all_drives.isSome
       ∧ hasKeyQ (changes_watch_query page_token drive_id include_corpus_removals include_items_from_all_drives include_removed page_size restrict_to_my_drive spaces supports_all_drives) "includeRemoved" = include_removed.isSome
       ∧ hasKeyQ (changes_watch_query page_token drive_id include_corpus_removals include_items_from_all_drives include_removed page_size restrict_to_my_drive spaces supports_all_drives) "pageSize" = truthyInt page_size
       ∧ hasKeyQ (changes_watch_query page_token drive_id include_corpus_removals include_items_from_all_drives include_removed page_size restrict_to_my_drive spaces supports_all_drives) "restrictToMyDrive" = restrict_to_my_drive.isSome
       ∧ hasKeyQ (changes_watch_query page_token drive_id include_corpus_removals include_items_from_all_drives include_removed page_size restrict_to_my_drive spaces supports_all_drives) "spaces" = truthyStr spaces
       ∧ hasKeyQ (changes_watch_query page_token drive_id include_corpus_removals include_items_from_all_drives include_removed page_size restrict_to_my_drive spaces supports_all_drives) "supportsAllDrives" = supports_all_drives.isSome)
  ∧ (∀ (content : String) (anchor : Option String) (quoted_file_content : Option QDict),
       hasKeyQ (comments_create_body content anchor quoted_file_content) "anchor" = truthyStr anchor
       ∧ hasKeyQ (comments_create_body content anchor quoted_file_content) "quotedFileContent" = truthyObj quoted_file_content)
  ∧ (∀ (include_deleted : Option Bool),
       hasKeyQ (comments_get_query include_deleted) "includeDeleted" = include_deleted.isSome)
  ∧ (∀ (include_deleted : Option Bool) (page_size : Option Int) (page_token start_modified_time : Option String),
       hasKeyQ (comments_list_query include_deleted page_size page_token start_modified_time) "includeDeleted" = include_deleted.isSome
       ∧ hasKeyQ (comments_list_query include_deleted page_size page_token start_modified_time) "pageSize" = truthyInt page_size
       ∧ hasKeyQ (comments_list_query include_deleted page_size page_token start_modified_time) "pageToken" = truthyStr page_token
       ∧ hasKeyQ (comments_list_query include_deleted page_size page_token start_modified_time) "startModifiedTime" = truthyStr start_modified_time)
  ∧ (∀ (name : String) (hidden : Option Bool),
       hasKeyQ (drives_create_body name hidden) "hidden" = hidden.isSome)
  ∧ (∀ (use_domain_admin_access allow_item_deletion : Option Bool),
       hasKeyQ (drives_delete_query use_domain_admin_access allow_item_deletion) "useDomainAdminAccess" = use_domain_admin_access.isSome
       ∧ hasKeyQ (drives_delete_query use_domain_admin_access allow_item_deletion) "allowItemDeletion" = allow_item_deletion.isSome)
  ∧ (∀ (use_domain_admin_access : Option Bool),
       hasKeyQ (drives_get_query use_domain_admin_access) "useDomainAdminAccess" = use_domain_admin_access.isSome)
  ∧ (∀ (page_size : Option Int) (page_token q : Option String) (use_domain_admin_access : Option Bool),
       hasKeyQ (drives_list_query page_size page_token q use_domain_admin_access) "pageSize" = truthyInt page_size
       ∧ hasKeyQ (drives_list_query page_size page_token q use_domain_admin_access) "pageToken" = truthyStr page_token
       ∧ hasKeyQ (drives_list_query page_size page_token q use_domain_admin_access) "q" = truthyStr q
       ∧ hasKeyQ (drives_list_query page_size page_token q use_domain_admin_access) "useDomainAdminAccess" = use_domain_admin_access.isSome)
  ∧ (∀ (use_domain_admin_access : Option Bool),
       hasKeyQ (drives_update_query use_domain_admin_access) "useDomainAdminAccess" = use_domain_admin_access.isSome)
  ∧ (∀ (name : Option String),
       hasKeyQ (drives_update_body name) "name" = truthyStr name)
  ∧ (∀ (ignore_default_visibility keep_revision_forever : Option Bool) (ocr_language : Option String) (supports_all_drives : Option Bool),
       hasKeyQ (files_copy_query ignore_default_visibility keep_revision_forever ocr_language supports_all_drives) "ignoreDefaultVisibility" = ignore_default_visibility.isSome
       ∧ hasKeyQ (files_copy_query ignore_default_visibility keep_revision_forever ocr_language supports_all_drives) "keepRevisionForever" = keep_revision_forever.isSome
       ∧ hasKeyQ (files_copy_query ignore_default_visibility keep_revision_forever ocr_language supports_all_drives) "ocrLanguage" = truthyStr ocr_language
       ∧ hasKeyQ (files_copy_query ignore_default_visibility keep_revision_forever ocr_language supports_all_drives) "supportsAllDrives" = supports_all_drives.isSome)
  ∧ (∀ (name : Option String) (parents : Option (List String)),
       hasKeyQ (files_copy_body name parents) "name" = truthyStr name
       ∧ hasKeyQ (files_copy_body name parents) "parents" = truthyList parents)
  ∧ (∀ (ignore_default_visibility keep_revision_forever : Option Bool) (ocr_language : Option String) (supports_all_drives use_content_as_indexable_text : Option Bool),
       hasKeyQ (files_create_query ignore_default_visibility keep_revision_forever ocr_language supports_all_drives use_content_as_indexable_text) "ignoreDefaultVisibility" = ignore_default_visibility.isSome
       ∧ hasKeyQ (files_create_query ignore_default_visibility keep_revision_forever ocr_language supports_all_drives use_content_as_indexable_text) "keepRevisionForever" = keep_revision_forever.isSome
       ∧ hasKeyQ (files_create_query ignore_default_visibility keep_revision_forever ocr_language supports_all_drives use_content_as_indexable_text) "ocrLanguage" = truthyStr ocr_language
       ∧ hasKeyQ (files_create_query ignore_default_visibility keep_revision_forever ocr_language supports_all_drives use_content_as_indexable_text) "supportsAllDrives" = supports_all_drives.isSome
       ∧ hasKeyQ (files_create_query ignore_default_visibility keep_revision_forever ocr_language supports_all_drives use_content_as_indexable_text) "useContentAsIndexableText" = use_content_as_indexable_text.isSome)
  ∧ (∀ (name : String) (parents : Option (List String)) (mime_type : Option String),
       hasKeyQ (files_create_body name parents mime_type) "parents" = truthyList parents
       ∧ hasKeyQ (files_create_body name parents mime_type) "mimeType" = truthyStr mime_type)
  ∧ (∀ (supports_all_drives : Option Bool),
       hasKeyQ (files_delete_query supports_all_drives) "supportsAllDrives" = supports_all_drives.isSome)
  ∧ (∀ (mime_type revision_id : Option String),
       hasKeyQ (files_download_query mime_type revision_id) "mimeType" = truthyStr mime_type
       ∧ hasKeyQ (files_download_query mime_type revision_id) "revisionId" = truthyStr revision_id)
  ∧ (∀ (drive_id : Option String),
       hasKeyQ (files_empty_trash_query drive_id) "driveId" = truthyStr drive_id)
  ∧ (∀ (count : Option Int) (space type : Option String),
       hasKeyQ (files_generate_ids_query count space type) "count" = truthyInt count
       ∧ hasKeyQ (files_generate_ids_query count space type) "space" = truthyStr space
       ∧ hasKeyQ (files_generate_ids_query count space type) "type" = truthyStr type)
  ∧ (∀ (acknowledge_abuse supports_all_drives : Option Bool) (fields : Option String),
       hasKeyQ (files_get_query acknowledge_abuse supports_all_drives fields) "acknowledgeAbuse" = acknowledge_abuse.isSome
       ∧ hasKeyQ (files_get_query acknowledge_abuse supports_all_drives fields) "supportsAllDrives" = supports_all_drives.isSome
       ∧ hasKeyQ (files_get_query acknowledge_abuse supports_all_drives fields) "fields" = truthyStr fields)
  ∧ (∀ (corpora drive_id : Option String) (include_items_from_all_drives : Option Bool) (order_by : Option String) (page_size : Option Int) (page_token q spaces : Option String) (supports_all_drives : Option Bool),
       hasKeyQ (files_list_query corpora drive_id include_items_from_all_drives order_by page_size page_token q spaces supports_all_drives) "corpora" = truthyStr corpora
       ∧ hasKeyQ (files_list_query corpora drive_id include_items_from_all_drives order_by page_size page_token q spaces supports_all_drives) "driveId" = truthyStr drive_id
       ∧ hasKeyQ (files_list_query corpora drive_id include_items_from_all_drives order_by page_size page_token q spaces supports_all_drives) "includeItemsFromAllDrives" = include_items_from_all_drives.isSome
       ∧ hasKeyQ (files_list_query corpora drive_id include_items_from_all_drives order_by page_size page_token q spaces supports_all_drives) "orderBy" = truthyStr order_by
       ∧ hasKeyQ (files_list_query corpora drive_id include_items_from_all_drives order_by page_size page_token q spaces supports_all_drives) "pageSize" = truthyInt page_size
       ∧ hasKeyQ (files_list_query corpora drive_id include_items_from_all_drives order_by page_size page_token q spaces supports_all_drives) "pageToken" = truthyStr page_token
       ∧ hasKeyQ (files_list_query corpora drive_id include_items_from_all_drives order_by page_size page_token q spaces supports_all_drives) "q" = truthyStr q
       ∧ hasKeyQ (files_list_query corpora drive_id include_items_from_all_drives order_by page_size page_token q spaces supports_all_drives) "spaces" = truthyStr spaces
       ∧ hasKeyQ (files_list_query corpora drive_id include_items_from_all_drives order_by page_size page_token q spaces supports_all_drives) "supportsAllDrives" = supports_all_drives.isSome)
  ∧ (∀ (max_results : Option Int) (page_token : Option String),
       hasKeyQ (files_list_labels_query max_results page_token) "maxResults" = truthyInt max_results
       ∧ hasKeyQ (files_list_labels_query max_results page_token) "pageToken" = truthyStr page_token)
  ∧ (∀ (add_parents remove_parents : Option String) (keep_revision_forever : Option Bool) (ocr_language : Option String) (supports_all_drives use_content_as_indexable_text : Option Bool),
       hasKeyQ (files_update_query add_parents remove_parents keep_revision_forever ocr_language supports_all_drives use_content_as_indexable_text) "addParents" = truthyStr add_parents
       ∧ hasKeyQ (files_update_query add_parents remove_parents keep_revision_forever ocr_language supports_all_drives use_content_as_indexable_text) "removeParents" = truthyStr remove_parents
       ∧ hasKeyQ (files_update_query add_parents remove_parents keep_revision_forever ocr_language supports_all_drives use_content_as_indexable_text) "keepRevisionForever" = keep_revision_forever.isSome
       ∧ hasKeyQ (files_update_query add_parents remove_parents keep_revision_forever ocr_language supports_all_drives use_content_as_indexable_text) "ocrLanguage" = truthyStr ocr_language
       ∧ hasKeyQ (files_update_query add_parents remove_parents keep_revision_forever ocr_language supports_all_drives use_content_as_indexable_text) "supportsAllDrives" = supports_all_drives.isSome
       ∧ hasKeyQ (files_update_query add_parents remove_parents keep_revision_forever ocr_language supports_all_drives use_content_as_indexable_text) "useContentAsIndexableText" = use_content_as_indexable_text.isSome)
  ∧ (∀ (name : Option String),
       hasKeyQ (files_update_body name) "name" = truthyStr name)
  ∧ (∀ (supports_all_drives acknowledge_abuse : Option Bool),
       hasKeyQ (files_watch_query supports_all_drives acknowledge_abuse) "supportsAllDrives" = supports_all_drives.isSome
       ∧ hasKeyQ (files_watch_query supports_all_drives acknowledge_abuse) "acknowledgeAbuse" = acknowledge_abuse.isSome)
  ∧ (∀ (email_message : Option String) (move_to_new_owners_root send_notification_email supports_all_drives transfer_ownership use_domain_admin_access : Option Bool),
       hasKeyQ (permissions_create_query email_message move_to_new_owners_root send_notification_email supports_all_drives transfer_ownership use_domain_admin_access) "emailMessage" = truthyStr email_message
       ∧ hasKeyQ (permissions_create_query email_message move_to_new_owners_root send_notification_email supports_all_drives transfer_ownership use_domain_admin_access) "moveToNewOwnersRoot" = move_to_new_owners_root.isSome
       ∧ hasKeyQ (permissions_create_query email_message move_to_new_owners_root send_notification_email supports_all_drives transfer_ownership use_domain_admin_access) "sendNotificationEmail" = send_notification_email.isSome
       ∧ hasKeyQ (permissions_create_query email_message move_to_new_owners_root send_notification_email supports_all_drives transfer_ownership use_domain_admin_access) "supportsAllDrives" = supports_all_drives.isSome
       ∧ hasKeyQ (permissions_create_query email_message move_to_new_owners_root send_notification_email supports_all_drives transfer_ownership use_domain_admin_access) "transferOwnership" = transfer_ownership.isSome
       ∧ hasKeyQ (permissions_create_query email_message move_to_new_owners_root send_notification_email supports_all_drives transfer_ownership use_domain_admin_access) "useDomainAdminAccess" = use_domain_admin_access.isSome)
  ∧ (∀ (role type : String) (email_address domain : Option String),
       hasKeyQ (permissions_create_body role type email_address domain) "emailAddress" = truthyStr email_address
       ∧ hasKeyQ (permissions_create_body role type email_address domain) "domain" = truthyStr domain)
  ∧ (∀ (supports_all_drives use_domain_admin_access : Option Bool),
       hasKeyQ (permissions_delete_query supports_all_drives use_domain_admin_access) "supportsAllDrives" = supports_all_drives.isSome
       ∧ hasKeyQ (permissions_delete_query supports_all_drives use_domain_admin_access) "useDomainAdminAccess" = use_domain_admin_access.isSome)
  ∧ (∀ (supports_all_drives use_domain_admin_access : Option Bool),
       hasKeyQ (permissions_get_query supports_all_drives use_domain_admin_access) "supportsAllDrives" = supports_all_drives.isSome
       ∧ hasKeyQ (permissions_get_query supports_all_drives use_domain_admin_access) "useDomainAdminAccess" = use_domain_admin_access.isSome)
  ∧ (∀ (page_size : Option Int) (page_token : Option String) (supports_all_drives use_domain_admin_access : Option Bool),
       hasKeyQ (permissions_list_query page_size page_token supports_all_drives use_domain_admin_access) "pageSize" = truthyInt page_size
       ∧ hasKeyQ (permissions_list_query page_size page_token supports_all_drives use_domain_admin_access) "pageToken" = truthyStr page_token
       ∧ hasKeyQ (permissions_list_query page_size page_token supports_all_drives use_domain_admin_access) "supportsAllDrives" = supports_all_drives.isSome
       ∧ hasKeyQ (permissions_list_query page_size page_token supports_all_drives use_domain_admin_access) "useDomainAdminAccess" = use_domain_admin_access.isSome)
  ∧ (∀ (remove_expiration supports_all_drives transfer_ownership use_domain_admin_access : Option Bool),
       hasKeyQ (permissions_update_query remove_expiration supports_all_drives transfer_ownership use_domain_admin_access) "removeExpiration" = remove_expiration.isSome
       ∧ hasKeyQ (permissions_update_query remove_expiration supports_all_drives transfer_ownership use_domain_admin_access) "supportsAllDrives" = supports_all_drives.isSome
       ∧ hasKeyQ (permissions_update_query remove_expiration supports_all_drives transfer_ownership use_domain_admin_access) "transferOwnership" = transfer_ownership.isSome
       ∧ hasKeyQ (permissions_update_query remove_expiration supports_all_drives transfer_ownership use_domain_admin_access) "useDomainAdminAccess" = use_domain_admin_access.isSome)
  ∧ (∀ (role : Option String),
       hasKeyQ (permissions_update_body role) "role" = truthyStr role)
  ∧ (∀ (include_deleted : Option Bool),
       hasKeyQ (replies_get_query include_deleted) "includeDeleted" = include_deleted.isSome)
  ∧ (∀ (include_deleted : Option Bool) (page_size : Option Int) (page_token : Option String),
       hasKeyQ (replies_list_query include_deleted page_size page_token) "includeDeleted" = include_deleted.isSome
       ∧ hasKeyQ (replies_list_query include_deleted page_size page_token) "pageSize" = truthyInt page_size
       ∧ hasKeyQ (replies_list_query include_deleted page_size page_token) "pageToken" = truthyStr page_token)
  ∧ (∀ (acknowledge_abuse : Option Bool),
       hasKeyQ (revisions_get_query acknowledge_abuse) "acknowledgeAbuse" = acknowledge_abuse.isSome)
  ∧ (∀ (page_size : Option Int) (page_token : Option String),
       hasKeyQ (revisions_list_query page_size page_token) "pageSize" = truthyInt page_size
       ∧ hasKeyQ (revisions_list_query page_size page_token) "pageToken" = truthyStr page_token)
  ∧ (∀ (keep_forever published published_outside_domain : Option Bool),
       hasKeyQ (revisions_update_body keep_forever published published_outside_domain) "keepForever" = keep_forever.isSome
       ∧ hasKeyQ (revisions_update_body keep_forever published published_outside_domain) "published" = published.isSome
       ∧ hasKeyQ (revisions_update_body keep_forever published published_outside_domain) "publishedOutsideDomain" = published_outside_domain.isSome)
    := by
  exact ⟨about_get_query_keys, accessproposals_list_query_keys, accessproposals_resolve_body_keys, apps_list_query_keys, changes_get_start_page_token_query_keys, changes_list_query_keys, changes_watch_query_keys, comments_create_body_keys, comments_get_query_keys, comments_list_query_keys, drives_create_body_keys, drives_delete_query_keys, drives_get_query_keys, drives_list_query_keys, drives_update_query_keys, drives_update_body_keys, files_copy_query_keys, files_copy_body_keys, files_create_query_keys, files_create_body_keys, files_delete_query_keys, files_download_query_keys, files_empty_trash_query_keys, files_generate_ids_query_keys, files_get_query_keys, files_list_query_keys, files_list_labels_query_keys, files_update_query_keys, files_update_body_keys, files_watch_query_keys, permissions_create_query_keys, permissions_create_body_keys, permissions_delete_query_keys, permissions_get_query_keys, permissions_list_query_keys, permissions_update_query_keys, permissions_update_body_keys, replies_get_query_keys, replies_list_query_keys, revisions_get_query_keys, revisions_list_query_keys, revisions_update_body_keys⟩
